import Mathlib

/-!
Verification development for `conjugate_gradient_method.ipynb`: a shallow
embedding, over exact real arithmetic, of the objective `f`, the
finite-difference gradient estimator `grad`, the helper `normalize`, the
directional derivative `line_grad`, the custom bisection line search
`my_line_search`, the Polak-Ribiere direction update `get_next_p`, and the
fixed-iteration driver loop.

The two `while` loops of `my_line_search` are modelled as fuel-based
recursions, where the fuel plays the role of `max_iters - i`; the Python
`raise TimeoutError` paths are modelled as `none`.  The Python local `lnew`
is assigned only inside the bisection loop body, so a run in which that body
never executes reaches `return x+lnew*p` with `lnew` unbound; the model
carries `lnew` as an `Option` and reports this path as `LSResult.nameError`.
-/

namespace CG

abbrev Vec := Fin 3 → ℝ

noncomputable section

/-- Problem parameter `a = 2`. -/
def a : ℝ := 2

/-- Problem parameter `b = 3`. -/
def b : ℝ := 3

/-- Start point `x0 = np.array([[2], [3], [2]])`. -/
def x0 : Vec := ![2, 3, 2]

/-- Analytical minimizer `answer = np.array([[1], [2], [1]])`. -/
def answer : Vec := ![1, 2, 1]

/-- `f(x) = a*(x[0]-1)**4 + (x[1]-2)**2 + b*(x[2]-1)**4`. -/
def f (x : Vec) : ℝ := a * (x 0 - 1) ^ 4 + (x 1 - 2) ^ 2 + b * (x 2 - 1) ^ 4

/-- `grad(pt, delta=1e-7)`: forward finite differences.  Copy `i` of the
point (`xh` column `i` in the notebook) perturbs exactly coordinate `i`
by `delta`; component `i` of the result is `(f(copy i) - f(pt))/delta`. -/
def grad (pt : Vec) (delta : ℝ := 1e-7) : Vec :=
  fun i => (f (fun j => pt j + (if i = j then delta else 0)) - f pt) / delta

/-- Euclidean norm of a 3-vector, `np.linalg.norm`. -/
def vnorm (vec : Vec) : ℝ := Real.sqrt (vec 0 ^ 2 + vec 1 ^ 2 + vec 2 ^ 2)

/-- `normalize(vec)`: `vec` itself when its norm is zero, else `vec/norm`. -/
def normalize (vec : Vec) : Vec :=
  if vnorm vec = 0 then vec else (1 / vnorm vec) • vec

/-- Dot product, `u.T @ v` for column vectors. -/
def dot (u v : Vec) : ℝ := u 0 * v 0 + u 1 * v 1 + u 2 * v 2

/-- `line_grad(x, p) = (grad(x).T @ normalize(p))[0,0]`. -/
def line_grad (x p : Vec) : ℝ := dot (grad x) (normalize p)

/-- Outcome of `my_line_search`: a returned point, one of the two
`TimeoutError`s, or the `UnboundLocalError` on `lnew` (see module header). -/
inductive LSResult where
  | ok (pt : Vec)
  | timeoutExpansion
  | timeoutBisection
  | nameError

/-- Part 1 of `my_line_search`: `while lgla * line_grad(x+lb*p, p) > 0:
lb *= feeler_step; i += 1; if i >= max_iters: raise TimeoutError`.
`fuel` stands for `max_iters - i`; the body that would make `i` reach
`max_iters` raises, i.e. returns `none`. -/
def expandLoop (x p : Vec) (lgla feeler_step : ℝ) (lb : ℝ) (fuel : ℕ) : Option ℝ :=
  if 0 < lgla * line_grad (x + lb • p) p then
    if _h : fuel ≤ 1 then none
    else expandLoop x p lgla feeler_step (lb * feeler_step) (fuel - 1)
  else some lb
termination_by fuel
decreasing_by omega

/-- Part 2 of `my_line_search`: `while lmax-lmin > tolerance: lnew =
(lmax+lmin)/2; if line_grad(x+lnew*p, p) > 0: lmax = lnew else: lmin = lnew;
i += 1; if i >= max_iters: raise TimeoutError`.  Returns the final
`(lmin, lmax, lnew)` state; `none` models the timeout. -/
def bisectLoop (x p : Vec) (tolerance : ℝ) (lmin lmax : ℝ) (lnew : Option ℝ)
    (fuel : ℕ) : Option (ℝ × ℝ × Option ℝ) :=
  if tolerance < lmax - lmin then
    if _h : fuel ≤ 1 then none
    else
      if 0 < line_grad (x + ((lmax + lmin) / 2) • p) p then
        bisectLoop x p tolerance lmin ((lmax + lmin) / 2) (some ((lmax + lmin) / 2)) (fuel - 1)
      else
        bisectLoop x p tolerance ((lmax + lmin) / 2) lmax (some ((lmax + lmin) / 2)) (fuel - 1)
  else some (lmin, lmax, lnew)
termination_by fuel
decreasing_by all_goals omega

/-- `my_line_search(x, p, feeler_init=1e-3, feeler_step=2, tolerance=1e-7,
max_iters=1000)`.  `la = 0`, `lgla = line_grad(x, p)`,
`lb = -line_grad(x, p)*feeler_init`; after part 1,
`lmax, lmin = max(la, lb), min(la, lb)`; after part 2 the Python
`return x+lnew*p` reads the loop-local `lnew`, which is unbound when the
bisection body never ran (`nameError`). -/
def my_line_search (x p : Vec) (feeler_init : ℝ := 1e-3) (feeler_step : ℝ := 2)
    (tolerance : ℝ := 1e-7) (max_iters : ℕ := 1000) : LSResult :=
  match expandLoop x p (line_grad x p) feeler_step (-line_grad x p * feeler_init) max_iters with
  | none => .timeoutExpansion
  | some lb =>
    match bisectLoop x p tolerance (min 0 lb) (max 0 lb) none max_iters with
    | none => .timeoutBisection
    | some (_, _, none) => .nameError
    | some (_, _, some lnew) => .ok (x + lnew • p)

/-- `get_next_x(this_x, this_p) = my_line_search(this_x, this_p)`. -/
def get_next_x (this_x this_p : Vec) : LSResult := my_line_search this_x this_p

/-- `get_next_p`: Polak-Ribiere update
`grad(next_x) + (numer/denom)*this_p` with
`numer = (grad(next_x)-grad(this_x)).T @ grad(next_x)` and
`denom = grad(this_x).T @ grad(this_x)`. -/
def get_next_p (this_x next_x this_p : Vec) : Vec :=
  grad next_x +
    (dot (grad next_x - grad this_x) (grad next_x) / dot (grad this_x) (grad this_x)) • this_p

/-- `p0 = grad(x0)`. -/
def p0 : Vec := grad x0

/-- The driver's `while (i < n_iters)` body, run `fuel` times: each pass
computes `next_x = get_next_x(this_x, this_p)` and
`next_p = get_next_p(this_x, next_x, this_p)`, records the pair and
advances.  A line-search exception aborts the whole run (`none`). -/
def driverLoop (this_x this_p : Vec) (fuel : ℕ) : Option (List (Vec × Vec)) :=
  if _h : fuel = 0 then some []
  else
    match get_next_x this_x this_p with
    | .ok next_x =>
      match driverLoop next_x (get_next_p this_x next_x this_p) (fuel - 1) with
      | some rest => some ((next_x, get_next_p this_x next_x this_p) :: rest)
      | none => none
    | _ => none
termination_by fuel
decreasing_by omega

/-- The driver cell: `this_x, this_p = x0, p0` with `p0 = grad(x0)`;
`x_ts = [this_x]; p_ts = [this_p]`; then the loop runs for
`i = 1, ..., n_iters - 1`, appending each new pair.  The trajectory is the
list of `(point, direction)` pairs, starting with the initial pair. -/
def driver (start : Vec) (n_iters : ℕ) : Option (List (Vec × Vec)) :=
  match driverLoop start (grad start) (n_iters - 1) with
  | some rest => some ((start, grad start) :: rest)
  | none => none

/-! ### Small evaluation helpers -/

lemma vec3_zero (r s t : ℝ) : (![r, s, t] : Vec) 0 = r := rfl

lemma vec3_one (r s t : ℝ) : (![r, s, t] : Vec) 1 = s := rfl

lemma vec3_two (r s t : ℝ) : (![r, s, t] : Vec) 2 = t := rfl

lemma grad_apply_zero (pt : Vec) (d : ℝ) :
    grad pt d 0 = a * ((pt 0 - 1 + d) ^ 4 - (pt 0 - 1) ^ 4) / d := by
  unfold grad f
  norm_num [Fin.ext_iff]
  ring_nf

lemma grad_apply_one (pt : Vec) (d : ℝ) (hd : d ≠ 0) :
    grad pt d 1 = 2 * (pt 1 - 2) + d := by
  unfold grad f
  norm_num [Fin.ext_iff]
  field_simp
  ring

lemma grad_apply_two (pt : Vec) (d : ℝ) :
    grad pt d 2 = b * ((pt 2 - 1 + d) ^ 4 - (pt 2 - 1) ^ 4) / d := by
  unfold grad f
  norm_num [Fin.ext_iff]
  ring_nf

/-- Closed form of `line_grad y d` once `normalize d` is known. -/
lemma line_grad_formula (y d q : Vec) (h : normalize d = q) :
    line_grad y d =
      q 0 * (a * ((y 0 - 1 + 1e-7) ^ 4 - (y 0 - 1) ^ 4) / 1e-7) +
      q 1 * (2 * (y 1 - 2) + 1e-7) +
      q 2 * (b * ((y 2 - 1 + 1e-7) ^ 4 - (y 2 - 1) ^ 4) / 1e-7) := by
  have h7 : (1e-7 : ℝ) ≠ 0 := by norm_num
  rw [line_grad, h, dot, grad_apply_zero y _, grad_apply_one y _ h7, grad_apply_two y _]
  ring

lemma normalize_of_sq (v : Vec) (r : ℝ) (hr : 0 < r)
    (h : v 0 ^ 2 + v 1 ^ 2 + v 2 ^ 2 = r ^ 2) :
    normalize v = (1 / r) • v := by
  have hv : vnorm v = r := by rw [vnorm, h, Real.sqrt_sq hr.le]
  rw [normalize, hv, if_neg hr.ne']

lemma normalize_zero_vec : normalize (0 : Vec) = 0 := by
  have h0 : vnorm (0 : Vec) = 0 := by
    rw [vnorm]
    norm_num
  rw [normalize, if_pos h0]

lemma line_grad_zero_dir (x : Vec) : line_grad x 0 = 0 := by
  rw [line_grad, normalize_zero_vec, dot]
  norm_num

/-! ### Driver trajectory facts -/

/-- The recorded list is a chain: each recorded pair is obtained from the
current `(x, p)` state by one line search and one direction update. -/
def chainFrom : Vec → Vec → List (Vec × Vec) → Prop
  | _, _, [] => True
  | x, pv, (y, q) :: rest =>
      get_next_x x pv = LSResult.ok y ∧ q = get_next_p x y pv ∧ chainFrom y q rest

lemma driverLoop_spec :
    ∀ (fuel : ℕ) (x pv : Vec) (l : List (Vec × Vec)),
      driverLoop x pv fuel = some l → l.length = fuel ∧ chainFrom x pv l := by
  intro fuel
  induction fuel using Nat.strong_induction_on with
  | _ fuel ih =>
    intro x pv l h
    rw [driverLoop.eq_def] at h
    split_ifs at h with h0
    · injection h with h
      subst h
      subst h0
      exact ⟨rfl, trivial⟩
    · cases hx : get_next_x x pv with
      | ok next_x =>
        simp only [hx] at h
        cases hr : driverLoop next_x (get_next_p x next_x pv) (fuel - 1) with
        | some rest =>
          simp only [hr] at h
          injection h with h
          subst h
          have := ih (fuel - 1) (by omega) _ _ _ hr
          refine ⟨by simp [this.1]; omega, hx, rfl, this.2⟩
        | none => simp only [hr] at h; simp at h
      | timeoutExpansion => simp only [hx] at h; simp at h
      | timeoutBisection => simp only [hx] at h; simp at h
      | nameError => simp only [hx] at h; simp at h

/-- Consecutive entries of `(x, pv) :: l` are linked by the recurrence when
`l` is a chain from `(x, pv)`. -/
lemma chainFrom_links :
    ∀ (l : List (Vec × Vec)) (x pv : Vec), chainFrom x pv l →
      ∀ (k : ℕ) (xk pk xk1 pk1 : Vec),
        ((x, pv) :: l).get? k = some (xk, pk) →
        ((x, pv) :: l).get? (k + 1) = some (xk1, pk1) →
        my_line_search xk pk = LSResult.ok xk1 ∧ pk1 = get_next_p xk xk1 pk := by
  intro l
  induction l with
  | nil =>
    intro x pv _ k xk pk xk1 pk1 _ h2
    rcases k with _ | k <;> exact absurd h2 (by simp)
  | cons hd tl ih =>
    intro x pv hch k xk pk xk1 pk1 h1 h2
    obtain ⟨y, q⟩ := hd
    obtain ⟨ha, hb, hc⟩ := hch
    cases k with
    | zero =>
      simp only [List.get?] at h1 h2
      injection h1 with h1
      injection h2 with h2
      cases h1
      cases h2
      exact ⟨ha, hb⟩
    | succ k =>
      exact ih y q hc k xk pk xk1 pk1 (by simpa using h1) (by simpa using h2)

/-! ### Structural facts about the two loops -/

/-- When the expansion loop exits normally, the directional derivatives at the
two bracket endpoints have product `<= 0` (the exit condition). -/
lemma expandLoop_some_le (x p : Vec) (lgla fs : ℝ) :
    ∀ (fuel : ℕ) (lb lb' : ℝ), expandLoop x p lgla fs lb fuel = some lb' →
      lgla * line_grad (x + lb' • p) p ≤ 0 := by
  intro fuel
  induction fuel using Nat.strong_induction_on with
  | _ fuel ih =>
    intro lb lb' h
    rw [expandLoop.eq_def] at h
    split_ifs at h with h1 h2
    · exact ih (fuel - 1) (by omega) _ _ h
    · injection h with h
      subst h
      exact not_lt.mp h1

/-- The expansion loop multiplies `lb` by nonnegative factors only, so the
sign of `lb` is preserved. -/
lemma expandLoop_some_sign (x p : Vec) (lgla fs : ℝ) (hfs : 0 ≤ fs) :
    ∀ (fuel : ℕ) (lb lb' : ℝ), expandLoop x p lgla fs lb fuel = some lb' →
      (lb ≤ 0 → lb' ≤ 0) ∧ (0 ≤ lb → 0 ≤ lb') := by
  intro fuel
  induction fuel using Nat.strong_induction_on with
  | _ fuel ih =>
    intro lb lb' h
    rw [expandLoop.eq_def] at h
    split_ifs at h with h1 h2
    · have := ih (fuel - 1) (by omega) _ _ h
      exact ⟨fun hlb => this.1 (by nlinarith), fun hlb => this.2 (by nlinarith)⟩
    · injection h with h
      subst h
      exact ⟨fun hlb => hlb, fun hlb => hlb⟩

/-- The expansion loop times out exactly when the sign-change test fails at
every one of the `fuel` feelers `lb * fs^k` it is allowed to inspect. -/
lemma expandLoop_none_iff (x p : Vec) (lgla fs : ℝ) :
    ∀ (fuel : ℕ) (lb : ℝ), 1 ≤ fuel →
      (expandLoop x p lgla fs lb fuel = none ↔
        ∀ k < fuel, 0 < lgla * line_grad (x + (lb * fs ^ k) • p) p) := by
  intro fuel
  induction fuel using Nat.strong_induction_on with
  | _ fuel ih =>
    intro lb hfuel
    rw [expandLoop.eq_def]
    split_ifs with h1 h2
    · constructor
      · intro _ k hk
        have hk0 : k = 0 := by omega
        subst hk0
        simpa using h1
      · intro _
        rfl
    · have h2' : 2 ≤ fuel := by omega
      rw [ih (fuel - 1) (by omega) (lb * fs) (by omega)]
      constructor
      · intro hall k hk
        rcases Nat.eq_zero_or_pos k with rfl | hkpos
        · simpa using h1
        · have hs := hall (k - 1) (by omega)
          have hpow : lb * fs * fs ^ (k - 1) = lb * fs ^ k := by
            rw [mul_assoc, ← pow_succ']
            congr 2
            omega
          rwa [hpow] at hs
      · intro hall k hk
        have hs := hall (k + 1) (by omega)
        have hpow : lb * fs * fs ^ k = lb * fs ^ (k + 1) := by
          rw [mul_assoc, ← pow_succ']
        rwa [← hpow] at hs
    · constructor
      · intro h
        exact absurd h (by simp)
      · intro hall
        exact absurd (by simpa using hall 0 (by omega)) h1

/-- On normal exit the bisection loop has shrunk the bracket, inside the
initial one, to width at most `tolerance`. -/
lemma bisectLoop_some (x p : Vec) (tol : ℝ) :
    ∀ (fuel : ℕ) (lmin lmax : ℝ) (ln : Option ℝ) (s : ℝ × ℝ × Option ℝ),
      lmin ≤ lmax →
      bisectLoop x p tol lmin lmax ln fuel = some s →
      lmin ≤ s.1 ∧ s.1 ≤ s.2.1 ∧ s.2.1 ≤ lmax ∧ s.2.1 - s.1 ≤ tol := by
  intro fuel
  induction fuel using Nat.strong_induction_on with
  | _ fuel ih =>
    intro lmin lmax ln s hord h
    rw [bisectLoop.eq_def] at h
    split_ifs at h with h1 h2 h3
    · have := ih (fuel - 1) (by omega) lmin ((lmax + lmin) / 2) _ s (by linarith) h
      exact ⟨this.1, this.2.1, by linarith [this.2.2.1], this.2.2.2⟩
    · have := ih (fuel - 1) (by omega) ((lmax + lmin) / 2) lmax _ s (by linarith) h
      exact ⟨by linarith [this.1], this.2.1, this.2.2.1, this.2.2.2⟩
    · injection h with h
      subst h
      exact ⟨le_refl _, hord, le_refl _, not_lt.mp h1⟩

/-- Full invariant of the bisection loop: the bracket stays ordered and
nested, the directional derivative stays `≤ 0` at the lower end and `≥ 0` at
the upper end, and the recorded midpoint stays inside the bracket. -/
lemma bisectLoop_invariant (x p : Vec) (tol : ℝ) :
    ∀ (fuel : ℕ) (lmin lmax : ℝ) (ln : Option ℝ) (s : ℝ × ℝ × Option ℝ),
      lmin ≤ lmax →
      line_grad (x + lmin • p) p ≤ 0 →
      0 ≤ line_grad (x + lmax • p) p →
      (∀ l, ln = some l → lmin ≤ l ∧ l ≤ lmax) →
      bisectLoop x p tol lmin lmax ln fuel = some s →
      s.1 ≤ s.2.1 ∧ s.2.1 - s.1 ≤ tol ∧
      line_grad (x + s.1 • p) p ≤ 0 ∧ 0 ≤ line_grad (x + s.2.1 • p) p ∧
      (∀ l, s.2.2 = some l → s.1 ≤ l ∧ l ≤ s.2.1) := by
  intro fuel
  induction fuel using Nat.strong_induction_on with
  | _ fuel ih =>
    intro lmin lmax ln s hord hgmin hgmax hln h
    rw [bisectLoop.eq_def] at h
    split_ifs at h with h1 h2 h3
    · exact ih (fuel - 1) (by omega) lmin ((lmax + lmin) / 2) _ s (by linarith) hgmin
        (le_of_lt h3) (fun l hl => by
          injection hl with hl
          subst hl
          exact ⟨by linarith, le_refl _⟩) h
    · exact ih (fuel - 1) (by omega) ((lmax + lmin) / 2) lmax _ s (by linarith)
        (not_lt.mp h3) hgmax (fun l hl => by
          injection hl with hl
          subst hl
          exact ⟨le_refl _, by linarith⟩) h
    · injection h with h
      subst h
      exact ⟨hord, not_lt.mp h1, hgmin, hgmax, hln⟩

/-- The bisection loop halves the bracket width each pass, so with `fuel`
passes allowed it times out exactly when `fuel - 1` halvings do not reach the
tolerance. -/
lemma bisectLoop_none_iff (x p : Vec) (tol : ℝ) :
    ∀ (fuel : ℕ) (lmin lmax : ℝ) (ln : Option ℝ), lmin ≤ lmax → 1 ≤ fuel →
      (bisectLoop x p tol lmin lmax ln fuel = none ↔
        tol < (lmax - lmin) / 2 ^ (fuel - 1)) := by
  intro fuel
  induction fuel using Nat.strong_induction_on with
  | _ fuel ih =>
    intro lmin lmax ln hord hfuel
    rw [bisectLoop.eq_def]
    split_ifs with h1 h2 h3
    · have hf1 : fuel = 1 := by omega
      subst hf1
      simpa using h1
    · have hw : ((lmax + lmin) / 2 - lmin) / 2 ^ (fuel - 1 - 1) =
          (lmax - lmin) / 2 ^ (fuel - 1) := by
        have he : (fuel - 1 : ℕ) = (fuel - 1 - 1) + 1 := by omega
        rw [he, pow_succ]
        have h2p : (0 : ℝ) < 2 ^ (fuel - 1 - 1) := by positivity
        field_simp
        ring
      rw [ih (fuel - 1) (by omega) lmin ((lmax + lmin) / 2) _ (by linarith) (by omega), hw]
    · have hw : (lmax - (lmax + lmin) / 2) / 2 ^ (fuel - 1 - 1) =
          (lmax - lmin) / 2 ^ (fuel - 1) := by
        have he : (fuel - 1 : ℕ) = (fuel - 1 - 1) + 1 := by omega
        rw [he, pow_succ]
        have h2p : (0 : ℝ) < 2 ^ (fuel - 1 - 1) := by positivity
        field_simp
        ring
      rw [ih (fuel - 1) (by omega) ((lmax + lmin) / 2) lmax _ (by linarith) (by omega), hw]
    · have hle : (lmax - lmin) / 2 ^ (fuel - 1) ≤ tol := by
        calc (lmax - lmin) / 2 ^ (fuel - 1) ≤ lmax - lmin := by
              apply div_le_self (by linarith)
              exact one_le_pow₀ (by norm_num)
          _ ≤ tol := not_lt.mp h1
      exact iff_of_false (by simp) (not_lt.mpr hle)

/-- Dispatch `my_line_search` through known results of its two loops. -/
lemma my_line_search_eq_of (x p : Vec) (fi fs tol : ℝ) (mi : ℕ) (lb : ℝ)
    (s : ℝ × ℝ × Option ℝ)
    (he : expandLoop x p (line_grad x p) fs (-line_grad x p * fi) mi = some lb)
    (hb : bisectLoop x p tol (min 0 lb) (max 0 lb) none mi = some s) :
    my_line_search x p fi fs tol mi =
      match s with
      | (_, _, none) => LSResult.nameError
      | (_, _, some lnew) => LSResult.ok (x + lnew • p) := by
  unfold my_line_search
  simp only [he, hb]
  obtain ⟨l1, l2, l3⟩ := s
  cases l3 <;> rfl

/-- `my_line_search` reports the expansion timeout exactly when the
expansion loop times out. -/
lemma my_line_search_timeoutExpansion_iff (x p : Vec) (fi fs tol : ℝ) (mi : ℕ) :
    my_line_search x p fi fs tol mi = LSResult.timeoutExpansion ↔
    expandLoop x p (line_grad x p) fs (-line_grad x p * fi) mi = none := by
  unfold my_line_search
  cases he : expandLoop x p (line_grad x p) fs (-line_grad x p * fi) mi with
  | none => simp
  | some lb =>
    cases hb : bisectLoop x p tol (min 0 lb) (max 0 lb) none mi with
    | none => simp [hb]
    | some s =>
      obtain ⟨l1, l2, l3⟩ := s
      cases l3 <;> simp [hb]

/-- A degenerate call: when the initial directional derivative is zero, the
expansion loop exits immediately with `lb = 0`, the bisection bracket is
`[0, 0]`, its body never runs, and the Python `return x+lnew*p` hits the
unbound local `lnew`. -/
lemma my_line_search_of_lgla_zero (x p : Vec) (fi fs tol : ℝ) (mi : ℕ)
    (h : line_grad x p = 0) (htol : 0 < tol) :
    my_line_search x p fi fs tol mi = LSResult.nameError := by
  have hlb : -line_grad x p * fi = 0 := by rw [h]; ring
  have he : expandLoop x p (line_grad x p) fs (-line_grad x p * fi) mi =
      some (-line_grad x p * fi) := by
    rw [expandLoop.eq_def, if_neg]
    rw [h]
    simp
  have hb : bisectLoop x p tol (min 0 (-line_grad x p * fi))
      (max 0 (-line_grad x p * fi)) none mi =
      some (min 0 (-line_grad x p * fi), max 0 (-line_grad x p * fi), none) := by
    rw [bisectLoop.eq_def, if_neg]
    rw [hlb]
    simp
    linarith
  exact (my_line_search_eq_of x p fi fs tol mi _ _ he hb).trans rfl

/-- Inversion of a successful `my_line_search` run: the loops produced
`some` results and the returned point is `x + l • p` for the recorded
midpoint `l`. -/
lemma my_line_search_ok_inv (x p : Vec) (fi fs tol : ℝ) (mi : ℕ) (y : Vec)
    (hok : my_line_search x p fi fs tol mi = LSResult.ok y) :
    ∃ lb l l1 l2 : ℝ,
      expandLoop x p (line_grad x p) fs (-line_grad x p * fi) mi = some lb ∧
      bisectLoop x p tol (min 0 lb) (max 0 lb) none mi = some (l1, l2, some l) ∧
      y = x + l • p := by
  unfold my_line_search at hok
  cases he : expandLoop x p (line_grad x p) fs (-line_grad x p * fi) mi with
  | none => simp only [he] at hok; simp at hok
  | some lb =>
    simp only [he] at hok
    cases hb : bisectLoop x p tol (min 0 lb) (max 0 lb) none mi with
    | none => simp only [hb] at hok; simp at hok
    | some s =>
      obtain ⟨l1, l2, l3⟩ := s
      cases l3 with
      | none => simp only [hb] at hok; simp at hok
      | some l =>
        simp only [hb] at hok
        refine ⟨lb, l, l1, l2, rfl, hb, ?_⟩
        injection hok with hok
        exact hok.symm

/-! ### Claim theorems (loop-level) -/

/-- C2.  `get_next_p(x_old, x_new, p_old)` is exactly the Polak-Ribiere
update `grad(x_new) + β • p_old` with
`β = ((grad x_new − grad x_old)ᵀ grad x_new) / (grad x_oldᵀ grad x_old)`,
where `grad` is the same finite-difference estimator (default `δ = 1e-7`)
used everywhere else. -/
theorem c2_polak_ribiere_update (x_old x_new p_old : Vec) (_h : grad x_old ≠ 0) :
    get_next_p x_old x_new p_old =
      grad x_new +
        (dot (grad x_new - grad x_old) (grad x_new) / dot (grad x_old) (grad x_old)) • p_old :=
  rfl

/-- C4 (amended).  On the zero direction, `normalize` maps the zero vector to
itself (no division by zero), but `my_line_search` does NOT return the input
point: the bisection bracket is degenerate, the loop body never runs, and the
Python `return x+lnew*p` fails on the unbound local `lnew`
(`LSResult.nameError`). -/
theorem c4_zero_direction (x : Vec) (fi fs tol : ℝ) (mi : ℕ) (htol : 0 < tol) :
    my_line_search x 0 fi fs tol mi = LSResult.nameError ∧ normalize 0 = 0 :=
  ⟨my_line_search_of_lgla_zero x 0 fi fs tol mi (line_grad_zero_dir x) htol,
   normalize_zero_vec⟩

/-- C5.  At `x0 = (2,3,2)` with the default `δ = 1e-7` the finite-difference
gradient matches the analytical gradient `(8, 2, 12)` to within
finite-difference error of order `1e-6` (at most `2e-6` per component), and
each component `i` is `(f(x0 + δ·e_i) − f(x0)) / δ` with only coordinate `i`
perturbed. -/
theorem c5_gradient_at_start :
    |grad x0 1e-7 0 - 8| ≤ 2e-6 ∧ |grad x0 1e-7 1 - 2| ≤ 2e-6 ∧
    |grad x0 1e-7 2 - 12| ≤ 2e-6 ∧
    ∀ i, grad x0 1e-7 i = (f (fun j => x0 j + (if i = j then 1e-7 else 0)) - f x0) / 1e-7 := by
  refine ⟨?_, ?_, ?_, fun i => rfl⟩
  · rw [grad_apply_zero]
    simp only [x0, vec3_zero, a]
    rw [abs_le]
    constructor <;> norm_num
  · rw [grad_apply_one _ _ (by norm_num : (1e-7 : ℝ) ≠ 0)]
    simp only [x0, vec3_one]
    rw [abs_le]
    constructor <;> norm_num
  · rw [grad_apply_two]
    simp only [x0, vec3_two, b]
    rw [abs_le]
    constructor <;> norm_num

/-- C6.  With the expansion loop allowed `max_iters` feelers, `my_line_search`
raises the expansion timeout exactly when the sign-change test
(`product > 0`) holds at every feeler `lb·fs^k`, `k < max_iters`; otherwise
the expansion exits with a feeler at which the product of the endpoint
directional derivatives is `≤ 0`. -/
theorem c6_bracket_expansion (x p : Vec) (fi fs tol : ℝ) (mi : ℕ) (hmi : 1 ≤ mi) :
    (my_line_search x p fi fs tol mi = LSResult.timeoutExpansion ↔
      ∀ k < mi, 0 < line_grad x p * line_grad (x + (-line_grad x p * fi * fs ^ k) • p) p) ∧
    (∀ lb', expandLoop x p (line_grad x p) fs (-line_grad x p * fi) mi = some lb' →
      line_grad x p * line_grad (x + lb' • p) p ≤ 0) :=
  ⟨(my_line_search_timeoutExpansion_iff x p fi fs tol mi).trans
      (expandLoop_none_iff x p (line_grad x p) fs mi (-line_grad x p * fi) hmi),
   fun lb' h => expandLoop_some_le x p (line_grad x p) fs mi _ lb' h⟩

/-- C7.  The bisection loop keeps an ordered, nested bracket; on normal exit
the final width is at most the tolerance; it times out exactly when
`fuel - 1` halvings leave the width above the tolerance; and each pass
evaluates the directional derivative at the midpoint, shrinking the upper
bound when it is positive and raising the lower bound otherwise. -/
theorem c7_bisection_invariants (x p : Vec) (tol lmin lmax : ℝ) (ln : Option ℝ)
    (fuel : ℕ) (hord : lmin ≤ lmax) (hfuel : 1 ≤ fuel) :
    (∀ s, bisectLoop x p tol lmin lmax ln fuel = some s →
        lmin ≤ s.1 ∧ s.1 ≤ s.2.1 ∧ s.2.1 ≤ lmax ∧ s.2.1 - s.1 ≤ tol) ∧
    (bisectLoop x p tol lmin lmax ln fuel = none ↔
      tol < (lmax - lmin) / 2 ^ (fuel - 1)) ∧
    (tol < lmax - lmin → ¬ fuel ≤ 1 →
      bisectLoop x p tol lmin lmax ln fuel =
        if 0 < line_grad (x + ((lmax + lmin) / 2) • p) p then
          bisectLoop x p tol lmin ((lmax + lmin) / 2) (some ((lmax + lmin) / 2)) (fuel - 1)
        else
          bisectLoop x p tol ((lmax + lmin) / 2) lmax (some ((lmax + lmin) / 2)) (fuel - 1)) := by
  refine ⟨fun s h => bisectLoop_some x p tol fuel lmin lmax ln s hord h,
    bisectLoop_none_iff x p tol fuel lmin lmax ln hord hfuel, fun h1 h2 => ?_⟩
  conv_lhs => rw [bisectLoop.eq_def]
  rw [if_pos h1, dif_neg h2]

/-- C8.  The whole optimization is deterministic: two runs of the driver from
equal start points with equal iteration counts (all other configuration being
the fixed constants `a`, `b`, `δ` and the line-search defaults) produce equal
trajectories. -/
theorem c8_reproducibility (s1 s2 : Vec) (n1 n2 : ℕ) (hx : s1 = s2) (hn : n1 = n2) :
    driver s1 n1 = driver s2 n2 := by
  rw [hx, hn]

/-- C9.  Whenever `my_line_search` returns normally, the returned point lies
on the line through `x` spanned by the raw input direction `p`:
normalization affects only the measurements, never the step taken. -/
theorem c9_step_on_input_ray (x p : Vec) (fi fs tol : ℝ) (mi : ℕ) (y : Vec)
    (hok : my_line_search x p fi fs tol mi = LSResult.ok y) :
    ∃ t : ℝ, y = x + t • p := by
  obtain ⟨lb, l, l1, l2, _, _, hy⟩ := my_line_search_ok_inv x p fi fs tol mi y hok
  exact ⟨l, hy⟩

/-- C10.  Under exact arithmetic, for `δ ≠ 0` the second component of
`grad(pt, δ)` is exactly `2·(pt₁ − 2) + δ` (a systematic bias of exactly
`+δ`), and components 0 and 2 involve only their own coordinate: perturbing
or even replacing coordinate 1 leaves them unchanged. -/
theorem c10_forward_difference_bias (pt : Vec) (d : ℝ) (hd : d ≠ 0) :
    grad pt d 1 = 2 * (pt 1 - 2) + d ∧
    grad pt d 0 = a * ((pt 0 - 1 + d) ^ 4 - (pt 0 - 1) ^ 4) / d ∧
    grad pt d 2 = b * ((pt 2 - 1 + d) ^ 4 - (pt 2 - 1) ^ 4) / d ∧
    ∀ c : ℝ, grad (Function.update pt 1 c) d 0 = grad pt d 0 ∧
      grad (Function.update pt 1 c) d 2 = grad pt d 2 := by
  refine ⟨grad_apply_one pt d hd, grad_apply_zero pt d, grad_apply_two pt d,
    fun c => ⟨?_, ?_⟩⟩
  · rw [grad_apply_zero, grad_apply_zero,
      Function.update_noteq (show (0 : Fin 3) ≠ 1 by decide)]
  · rw [grad_apply_two, grad_apply_two,
      Function.update_noteq (show (2 : Fin 3) ≠ 1 by decide)]

/-- C1 (amended).  When `my_line_search` returns a point, that point is
`x + l • p` for a step `l` lying in a bracket of width at most `tolerance`
over which the directional derivative changes sign (`≤ 0` at the lower end,
`≥ 0` at the upper end).  The derivative at the returned point itself need
not be small (see the counterexample). -/
theorem c1_line_search_postcondition (x p : Vec) (fi fs tol : ℝ) (mi : ℕ) (y : Vec)
    (hfi : 0 ≤ fi) (hfs : 0 ≤ fs) (htol : 0 < tol)
    (hok : my_line_search x p fi fs tol mi = LSResult.ok y) :
    ∃ l lo hi : ℝ, y = x + l • p ∧ lo ≤ l ∧ l ≤ hi ∧ hi - lo ≤ tol ∧
      line_grad (x + lo • p) p ≤ 0 ∧ 0 ≤ line_grad (x + hi • p) p := by
  obtain ⟨lb, l, l1, l2, he, hb, hy⟩ := my_line_search_ok_inv x p fi fs tol mi y hok
  rcases lt_trichotomy (line_grad x p) 0 with hneg | hzero | hpos
  · have hlb0 : 0 ≤ -line_grad x p * fi := by nlinarith
    have hlb : 0 ≤ lb := (expandLoop_some_sign x p _ fs hfs mi _ _ he).2 hlb0
    have hmin : min (0 : ℝ) lb = 0 := min_eq_left hlb
    have hmax : max (0 : ℝ) lb = lb := max_eq_right hlb
    rw [hmin, hmax] at hb
    have hprod := expandLoop_some_le x p _ fs mi _ _ he
    have hgmax : 0 ≤ line_grad (x + lb • p) p := by nlinarith
    have hgmin : line_grad (x + (0 : ℝ) • p) p ≤ 0 := by
      have hx0 : x + (0 : ℝ) • p = x := by simp
      rw [hx0]
      exact le_of_lt hneg
    have hinv := bisectLoop_invariant x p tol mi 0 lb none (l1, l2, some l) hlb hgmin hgmax
      (fun l' hl' => by simp at hl') hb
    exact ⟨l, l1, l2, hy, (hinv.2.2.2.2 l rfl).1, (hinv.2.2.2.2 l rfl).2,
      hinv.2.1, hinv.2.2.1, hinv.2.2.2.1⟩
  · exact absurd
      (hok.symm.trans (my_line_search_of_lgla_zero x p fi fs tol mi hzero htol)) (by simp)
  · have hlb0 : -line_grad x p * fi ≤ 0 := by nlinarith
    have hlb : lb ≤ 0 := (expandLoop_some_sign x p _ fs hfs mi _ _ he).1 hlb0
    have hmin : min (0 : ℝ) lb = lb := min_eq_right hlb
    have hmax : max (0 : ℝ) lb = 0 := max_eq_left hlb
    rw [hmin, hmax] at hb
    have hprod := expandLoop_some_le x p _ fs mi _ _ he
    have hgmin : line_grad (x + lb • p) p ≤ 0 := by nlinarith
    have hgmax : 0 ≤ line_grad (x + (0 : ℝ) • p) p := by
      have hx0 : x + (0 : ℝ) • p = x := by simp
      rw [hx0]
      exact le_of_lt hpos
    have hinv := bisectLoop_invariant x p tol mi lb 0 none (l1, l2, some l) hlb hgmin hgmax
      (fun l' hl' => by simp at hl') hb
    exact ⟨l, l1, l2, hy, (hinv.2.2.2.2 l rfl).1, (hinv.2.2.2.2 l rfl).2,
      hinv.2.1, hinv.2.2.1, hinv.2.2.2.1⟩

/-- C3 (amended).  For `n_iters ≥ 1` a successful driver run returns a
trajectory of length `n_iters` whose index 0 is the INITIAL pair
`(x0, grad x0)` (not the first post-line-search iterate, which sits at
index 1), and in which every pair of consecutive entries satisfies
`x_{k+1} = my_line_search(x_k, p_k)` and
`p_{k+1} = get_next_p(x_k, x_{k+1}, p_k)`. -/
theorem c3_driver_trajectory (start : Vec) (n : ℕ) (t : List (Vec × Vec))
    (hn : 1 ≤ n) (h : driver start n = some t) :
    t.length = n ∧ t.get? 0 = some (start, grad start) ∧
    ∀ (k : ℕ) (xk pk xk1 pk1 : Vec),
      t.get? k = some (xk, pk) → t.get? (k + 1) = some (xk1, pk1) →
      my_line_search xk pk = LSResult.ok xk1 ∧ pk1 = get_next_p xk xk1 pk := by
  unfold driver at h
  cases hr : driverLoop start (grad start) (n - 1) with
  | none => simp only [hr] at h; simp at h
  | some rest =>
    simp only [hr] at h
    injection h with h
    subst h
    obtain ⟨hlen, hch⟩ := driverLoop_spec (n - 1) start (grad start) rest hr
    refine ⟨?_, rfl, ?_⟩
    · simp only [List.length_cons, hlen]
      omega
    · intro k xk pk xk1 pk1 h1 h2
      exact chainFrom_links rest start (grad start) hch k xk pk xk1 pk1 h1 h2

/-! ### Concrete run A: a short, fully evaluated `my_line_search` run -/

/-- Point of the concrete line-search run A. Chosen so that `line_grad cxA cpA = -1/500` exactly. -/
def cxA : Vec := ![(1 : ℝ), (-((95997003220075002400000003 : ℝ) / 1500000000000000000000)), (21 : ℝ)]

/-- Direction of the concrete line-search run A. `(0, 3, 4)`, of norm 5. -/
def cpA : Vec := ![(0 : ℝ), (3 : ℝ), (4 : ℝ)]

/-- Exact normalization of `cpA` (its norm is rational). -/
def cqA : Vec := ![(0 : ℝ), ((3 : ℝ) / 5), ((4 : ℝ) / 5)]

lemma normalizeA : normalize cpA = cqA := by
  rw [normalize_of_sq cpA (5 : ℝ) (by norm_num)
    (by simp only [cpA, vec3_zero, vec3_one, vec3_two]; norm_num)]
  funext i
  fin_cases i <;> simp [cpA, cqA] <;> norm_num

lemma hlgA : line_grad cxA cpA = (-((1 : ℝ) / 500)) := by
  rw [line_grad_formula _ _ _ normalizeA]
  simp only [cxA, cqA, vec3_zero, vec3_one, vec3_two, a, b]
  norm_num

lemma hgAe0 : line_grad (cxA + ((1 : ℝ) / 500000) • cpA) cpA = ((352215770800019563 : ℝ) / 3906250000000000000) := by
  rw [show cxA + ((1 : ℝ) / 500000) • cpA =
      ![(1 : ℝ), (-((95997003211075002400000003 : ℝ) / 1500000000000000000000)), ((2625001 : ℝ) / 125000)] from by
    funext i
    fin_cases i <;> simp [cxA, cpA] <;> norm_num]
  rw [line_grad_formula _ _ _ normalizeA]
  simp only [cqA, vec3_zero, vec3_one, vec3_two, a, b]
  norm_num

lemma eA0 : expandLoop cxA cpA (-((1 : ℝ) / 500)) 2 ((1 : ℝ) / 500000) 1000 = some ((1 : ℝ) / 500000) := by
  rw [expandLoop.eq_def,
    if_neg (show ¬ ((0 : ℝ) < (-((1 : ℝ) / 500)) * line_grad (cxA + ((1 : ℝ) / 500000) • cpA) cpA) from by
      rw [hgAe0]; norm_num)]

lemma hgAb1 : line_grad (cxA + ((1 : ℝ) / 1000000) • cpA) cpA = ((344403198800004983 : ℝ) / 7812500000000000000) := by
  rw [show cxA + ((1 : ℝ) / 1000000) • cpA =
      ![(1 : ℝ), (-((95997003215575002400000003 : ℝ) / 1500000000000000000000)), ((5250001 : ℝ) / 250000)] from by
    funext i
    fin_cases i <;> simp [cxA, cpA] <;> norm_num]
  rw [line_grad_formula _ _ _ normalizeA]
  simp only [cqA, vec3_zero, vec3_one, vec3_two, a, b]
  norm_num

lemma hgAb2 : line_grad (cxA + ((1 : ℝ) / 2000000) • cpA) cpA = ((328778162800001293 : ℝ) / 15625000000000000000) := by
  rw [show cxA + ((1 : ℝ) / 2000000) • cpA =
      ![(1 : ℝ), (-((95997003217825002400000003 : ℝ) / 1500000000000000000000)), ((10500001 : ℝ) / 500000)] from by
    funext i
    fin_cases i <;> simp [cxA, cpA] <;> norm_num]
  rw [line_grad_formula _ _ _ normalizeA]
  simp only [cqA, vec3_zero, vec3_one, vec3_two, a, b]
  norm_num

lemma hgAb3 : line_grad (cxA + ((1 : ℝ) / 4000000) • cpA) cpA = ((74382036200000087 : ℝ) / 7812500000000000000) := by
  rw [show cxA + ((1 : ℝ) / 4000000) • cpA =
      ![(1 : ℝ), (-((95997003218950002400000003 : ℝ) / 1500000000000000000000)), ((21000001 : ℝ) / 1000000)] from by
    funext i
    fin_cases i <;> simp [cxA, cpA] <;> norm_num]
  rw [line_grad_formula _ _ _ normalizeA]
  simp only [cqA, vec3_zero, vec3_one, vec3_two, a, b]
  norm_num

lemma hgAb4 : line_grad (cxA + ((1 : ℝ) / 8000000) • cpA) cpA = ((470056271600000201 : ℝ) / 125000000000000000000) := by
  rw [show cxA + ((1 : ℝ) / 8000000) • cpA =
      ![(1 : ℝ), (-((95997003219512502400000003 : ℝ) / 1500000000000000000000)), ((42000001 : ℝ) / 2000000)] from by
    funext i
    fin_cases i <;> simp [cxA, cpA] <;> norm_num]
  rw [line_grad_formula _ _ _ normalizeA]
  simp only [cqA, vec3_zero, vec3_one, vec3_two, a, b]
  norm_num

lemma hgAb5 : line_grad (cxA + ((1 : ℝ) / 16000000) • cpA) cpA = ((110028131300000033 : ℝ) / 125000000000000000000) := by
  rw [show cxA + ((1 : ℝ) / 16000000) • cpA =
      ![(1 : ℝ), (-((95997003219793752400000003 : ℝ) / 1500000000000000000000)), ((84000001 : ℝ) / 4000000)] from by
    funext i
    fin_cases i <;> simp [cxA, cpA] <;> norm_num]
  rw [line_grad_formula _ _ _ normalizeA]
  simp only [cqA, vec3_zero, vec3_one, vec3_two, a, b]
  norm_num

lemma bA6 : bisectLoop cxA cpA 1e-7 (0 : ℝ) ((1 : ℝ) / 16000000) (some ((1 : ℝ) / 16000000)) 995 =
    some ((0 : ℝ), ((1 : ℝ) / 16000000), some ((1 : ℝ) / 16000000)) := by
  rw [bisectLoop.eq_def,
    if_neg (show ¬ ((1e-7 : ℝ) < ((1 : ℝ) / 16000000) - (0 : ℝ)) from by norm_num)]

lemma bA5 : bisectLoop cxA cpA 1e-7 (0 : ℝ) ((1 : ℝ) / 8000000) (some ((1 : ℝ) / 8000000)) 996 =
    some ((0 : ℝ), ((1 : ℝ) / 16000000), some ((1 : ℝ) / 16000000)) := by
  rw [bisectLoop.eq_def,
    show ((((1 : ℝ) / 8000000) + (0 : ℝ)) / 2) = ((1 : ℝ) / 16000000) from by norm_num,
    show ((996 : ℕ) - 1) = (995 : ℕ) from by norm_num,
    if_pos (show ((1e-7 : ℝ) < ((1 : ℝ) / 8000000) - (0 : ℝ)) from by norm_num),
    dif_neg (show ¬ ((996 : ℕ) ≤ 1) from by norm_num),
    if_pos (show (0 : ℝ) < line_grad (cxA + ((1 : ℝ) / 16000000) • cpA) cpA from by
      rw [hgAb5]; norm_num)]
  exact bA6

lemma bA4 : bisectLoop cxA cpA 1e-7 (0 : ℝ) ((1 : ℝ) / 4000000) (some ((1 : ℝ) / 4000000)) 997 =
    some ((0 : ℝ), ((1 : ℝ) / 16000000), some ((1 : ℝ) / 16000000)) := by
  rw [bisectLoop.eq_def,
    show ((((1 : ℝ) / 4000000) + (0 : ℝ)) / 2) = ((1 : ℝ) / 8000000) from by norm_num,
    show ((997 : ℕ) - 1) = (996 : ℕ) from by norm_num,
    if_pos (show ((1e-7 : ℝ) < ((1 : ℝ) / 4000000) - (0 : ℝ)) from by norm_num),
    dif_neg (show ¬ ((997 : ℕ) ≤ 1) from by norm_num),
    if_pos (show (0 : ℝ) < line_grad (cxA + ((1 : ℝ) / 8000000) • cpA) cpA from by
      rw [hgAb4]; norm_num)]
  exact bA5

lemma bA3 : bisectLoop cxA cpA 1e-7 (0 : ℝ) ((1 : ℝ) / 2000000) (some ((1 : ℝ) / 2000000)) 998 =
    some ((0 : ℝ), ((1 : ℝ) / 16000000), some ((1 : ℝ) / 16000000)) := by
  rw [bisectLoop.eq_def,
    show ((((1 : ℝ) / 2000000) + (0 : ℝ)) / 2) = ((1 : ℝ) / 4000000) from by norm_num,
    show ((998 : ℕ) - 1) = (997 : ℕ) from by norm_num,
    if_pos (show ((1e-7 : ℝ) < ((1 : ℝ) / 2000000) - (0 : ℝ)) from by norm_num),
    dif_neg (show ¬ ((998 : ℕ) ≤ 1) from by norm_num),
    if_pos (show (0 : ℝ) < line_grad (cxA + ((1 : ℝ) / 4000000) • cpA) cpA from by
      rw [hgAb3]; norm_num)]
  exact bA4

lemma bA2 : bisectLoop cxA cpA 1e-7 (0 : ℝ) ((1 : ℝ) / 1000000) (some ((1 : ℝ) / 1000000)) 999 =
    some ((0 : ℝ), ((1 : ℝ) / 16000000), some ((1 : ℝ) / 16000000)) := by
  rw [bisectLoop.eq_def,
    show ((((1 : ℝ) / 1000000) + (0 : ℝ)) / 2) = ((1 : ℝ) / 2000000) from by norm_num,
    show ((999 : ℕ) - 1) = (998 : ℕ) from by norm_num,
    if_pos (show ((1e-7 : ℝ) < ((1 : ℝ) / 1000000) - (0 : ℝ)) from by norm_num),
    dif_neg (show ¬ ((999 : ℕ) ≤ 1) from by norm_num),
    if_pos (show (0 : ℝ) < line_grad (cxA + ((1 : ℝ) / 2000000) • cpA) cpA from by
      rw [hgAb2]; norm_num)]
  exact bA3

lemma bA1 : bisectLoop cxA cpA 1e-7 (0 : ℝ) ((1 : ℝ) / 500000) none 1000 =
    some ((0 : ℝ), ((1 : ℝ) / 16000000), some ((1 : ℝ) / 16000000)) := by
  rw [bisectLoop.eq_def,
    show ((((1 : ℝ) / 500000) + (0 : ℝ)) / 2) = ((1 : ℝ) / 1000000) from by norm_num,
    show ((1000 : ℕ) - 1) = (999 : ℕ) from by norm_num,
    if_pos (show ((1e-7 : ℝ) < ((1 : ℝ) / 500000) - (0 : ℝ)) from by norm_num),
    dif_neg (show ¬ ((1000 : ℕ) ≤ 1) from by norm_num),
    if_pos (show (0 : ℝ) < line_grad (cxA + ((1 : ℝ) / 1000000) • cpA) cpA from by
      rw [hgAb1]; norm_num)]
  exact bA2

lemma eAc : expandLoop cxA cpA (line_grad cxA cpA) 2
    (-line_grad cxA cpA * 1e-3) 1000 = some ((1 : ℝ) / 500000) := by
  rw [hlgA, show (-(-((1 : ℝ) / 500)) * (1e-3 : ℝ)) = ((1 : ℝ) / 500000) from by norm_num]
  exact eA0

lemma bAc : bisectLoop cxA cpA 1e-7 (min 0 ((1 : ℝ) / 500000)) (max 0 ((1 : ℝ) / 500000)) none 1000 =
    some ((0 : ℝ), ((1 : ℝ) / 16000000), some ((1 : ℝ) / 16000000)) := by
  rw [show (min (0 : ℝ) ((1 : ℝ) / 500000)) = (0 : ℝ) from by norm_num,
    show (max (0 : ℝ) ((1 : ℝ) / 500000)) = ((1 : ℝ) / 500000) from by norm_num]
  exact bA1

/-- The full concrete run A: `my_line_search` succeeds and returns
`cxA + lnew • cpA` with `lnew = 1/16000000`. -/
lemma runA : my_line_search cxA cpA = LSResult.ok (cxA + ((1 : ℝ) / 16000000) • cpA) :=
  (my_line_search_eq_of cxA cpA 1e-3 2 1e-7 1000 ((1 : ℝ) / 500000)
    ((0 : ℝ), ((1 : ℝ) / 16000000), some ((1 : ℝ) / 16000000)) eAc bAc).trans rfl

/-! ### Concrete run B: a fully evaluated driver run from `cxB` with `p = grad cxB` -/

/-- Point of the concrete line-search run B. Chosen so that its finite-difference gradient `cpB` has the rational norm `rB`. -/
def cxB : Vec := ![((11 : ℝ) / 4), ((354734051268724489373799499965699999439999987 : ℝ) / 172000000000000000000000000000000000000000000), (1 : ℝ)]

/-- Direction of the concrete line-search run B. Equal to `grad cxB`, so this is the driver's first search direction. -/
def cpB : Vec := ![((21437501837500070000001 : ℝ) / 500000000000000000000), ((10734059868724489373799499965699999439999987 : ℝ) / 86000000000000000000000000000000000000000000), ((3 : ℝ) / 1000000000000000000000)]

/-- Exact normalization of `cpB` (its norm is rational). -/
def cqB : Vec := ![((3687250316050012040000172000000000000000000000 : ℝ) / 3687265940131275510626200500034300000560000013), ((10734059868724489373799499965699999439999987 : ℝ) / 3687265940131275510626200500034300000560000013), ((258000000000000000000000 : ℝ) / 3687265940131275510626200500034300000560000013)]

lemma normalizeB : normalize cpB = cqB := by
  rw [normalize_of_sq cpB ((3687265940131275510626200500034300000560000013 : ℝ) / 86000000000000000000000000000000000000000000) (by norm_num)
    (by simp only [cpB, vec3_zero, vec3_one, vec3_two]; norm_num)]
  funext i
  fin_cases i <;> simp [cpB, cqB] <;> norm_num

lemma hlgB : line_grad cxB cpB = ((3687265940131275510626200500034300000560000013 : ℝ) / 86000000000000000000000000000000000000000000) := by
  rw [line_grad_formula _ _ _ normalizeB]
  simp only [cxB, cqB, vec3_zero, vec3_one, vec3_two, a, b]
  norm_num

lemma hgBe0 : line_grad (cxB + (-((3687265940131275510626200500034300000560000013 : ℝ) / 86000000000000000000000000000000000000000000000)) • cpB) cpB = (-((382416351464415612293415231444037018834695497284004855712128374886466925510370112469954972452703253837316996088658759745366506849635115869385342962162082067186427464220729601859 : ℝ) / 73960000000000000000000000000000000000000000000000000000000000000000000000000000000000000000000000000000000000000000000000000000000000000000000000000000000000000000000000000000000)) := by
  rw [show cxB + (-((3687265940131275510626200500034300000560000013 : ℝ) / 86000000000000000000000000000000000000000000000)) • cpB =
      ![((39204229633084358141112579549645399815423120090812402612498529999987 : ℝ) / 43000000000000000000000000000000000000000000000000000000000000000000), ((15213984871201875242971116659863314701863499907971150369615684326319629001205400014560000169 : ℝ) / 7396000000000000000000000000000000000000000000000000000000000000000000000000000000000000000), ((85999999999999999999988938202179606173468121398499897099998319999961 : ℝ) / 86000000000000000000000000000000000000000000000000000000000000000000)] from by
    funext i
    fin_cases i <;> simp [cxB, cpB] <;> norm_num]
  rw [line_grad_formula _ _ _ normalizeB]
  simp only [cqB, vec3_zero, vec3_one, vec3_two, a, b]
  norm_num

lemma eB0 : expandLoop cxB cpB ((3687265940131275510626200500034300000560000013 : ℝ) / 86000000000000000000000000000000000000000000) 2 (-((3687265940131275510626200500034300000560000013 : ℝ) / 86000000000000000000000000000000000000000000000)) 1000 = some (-((3687265940131275510626200500034300000560000013 : ℝ) / 86000000000000000000000000000000000000000000000)) := by
  rw [expandLoop.eq_def,
    if_neg (show ¬ ((0 : ℝ) < ((3687265940131275510626200500034300000560000013 : ℝ) / 86000000000000000000000000000000000000000000) * line_grad (cxB + (-((3687265940131275510626200500034300000560000013 : ℝ) / 86000000000000000000000000000000000000000000000)) • cpB) cpB) from by
      rw [hgBe0]; norm_num)]

lemma hgBb1 : line_grad (cxB + (-((3687265940131275510626200500034300000560000013 : ℝ) / 172000000000000000000000000000000000000000000000)) • cpB) cpB = ((2715166703857597258338430901715994171210696079882600619697148183351103440249665091740678823852019169105970417858235821890930633493150364884130614657037837917932813572535779270398141 : ℝ) / 591680000000000000000000000000000000000000000000000000000000000000000000000000000000000000000000000000000000000000000000000000000000000000000000000000000000000000000000000000000000) := by
  rw [show cxB + (-((3687265940131275510626200500034300000560000013 : ℝ) / 172000000000000000000000000000000000000000000000)) • cpB =
      ![((157454229633084358141112579549645399815423120090812402612498529999987 : ℝ) / 86000000000000000000000000000000000000000000000000000000000000000000), ((30467549075757028286044495158388414677783499348971150369615684326319629001205400014560000169 : ℝ) / 14792000000000000000000000000000000000000000000000000000000000000000000000000000000000000000), ((171999999999999999999988938202179606173468121398499897099998319999961 : ℝ) / 172000000000000000000000000000000000000000000000000000000000000000000)] from by
    funext i
    fin_cases i <;> simp [cxB, cpB] <;> norm_num]
  rw [line_grad_formula _ _ _ normalizeB]
  simp only [cqB, vec3_zero, vec3_one, vec3_two, a, b]
  norm_num

lemma hgBb2 : line_grad (cxB + (-((11061797820393826531878601500102900001680000039 : ℝ) / 344000000000000000000000000000000000000000000000)) • cpB) cpB = ((1939911350667194932644714160688242825712294351446378869842018722570330037732447165388850245444023863384662054794526539342959104315059851871526595740021623784185966458466040300749807 : ℝ) / 4733440000000000000000000000000000000000000000000000000000000000000000000000000000000000000000000000000000000000000000000000000000000000000000000000000000000000000000000000000000000) := by
  rw [show cxB + (-((11061797820393826531878601500102900001680000039 : ℝ) / 344000000000000000000000000000000000000000000000)) • cpB =
      ![((235862688899253074423337738648936199446269360272437207837495589999961 : ℝ) / 172000000000000000000000000000000000000000000000000000000000000000000), ((60895518818160778771986728478115044081510499164913451108847052978958887003616200043680000507 : ℝ) / 29584000000000000000000000000000000000000000000000000000000000000000000000000000000000000000), ((343999999999999999999966814606538818520404364195499691299994959999883 : ℝ) / 344000000000000000000000000000000000000000000000000000000000000000000)] from by
    funext i
    fin_cases i <;> simp [cxB, cpB] <;> norm_num]
  rw [line_grad_formula _ _ _ normalizeB]
  simp only [cqB, vec3_zero, vec3_one, vec3_two, a, b]
  norm_num

lemma hgBb3 : line_grad (cxB + (-((25810861580918928574383403500240100003920000091 : ℝ) / 688000000000000000000000000000000000000000000000)) • cpB) cpB = ((871189321721156602017932182147167167724886587664530597374418924095935657146076694457495748807844529564379278203489597290463288150575155256800827363978405850955055379772289746562363 : ℝ) / 37867520000000000000000000000000000000000000000000000000000000000000000000000000000000000000000000000000000000000000000000000000000000000000000000000000000000000000000000000000000000) := by
  rw [show cxB + (-((25810861580918928574383403500240100003920000091 : ℝ) / 688000000000000000000000000000000000000000000000)) • cpB =
      ![((392679607431590506987788056847517798707961840635686818287489709999909 : ℝ) / 344000000000000000000000000000000000000000000000000000000000000000000), ((121751458302968279743871195117568302888964498796798052587309790284237403008437800101920001183 : ℝ) / 59168000000000000000000000000000000000000000000000000000000000000000000000000000000000000000), ((687999999999999999999922567415257243214276849789499279699988239999727 : ℝ) / 688000000000000000000000000000000000000000000000000000000000000000000)] from by
    funext i
    fin_cases i <;> simp [cxB, cpB] <;> norm_num]
  rw [line_grad_formula _ _ _ normalizeB]
  simp only [cqB, vec3_zero, vec3_one, vec3_two, a, b]
  norm_num

lemma hgBb4 : line_grad (cxB + (-((11061797820393826531878601500102900001680000039 : ℝ) / 275200000000000000000000000000000000000000000000)) • cpB) cpB = ((1175459177599765127076993344495505843790584672908099482662042269186760367037278788195023306226382394046363843390278658091904315059851871526595740021623784185966458466040300749807 : ℝ) / 2423521280000000000000000000000000000000000000000000000000000000000000000000000000000000000000000000000000000000000000000000000000000000000000000000000000000000000000000000000000000) := by
  rw [show cxB + (-((11061797820393826531878601500102900001680000039 : ℝ) / 275200000000000000000000000000000000000000000000)) • cpB =
      ![((141262688899253074423337738648936199446269360272437207837495589999961 : ℝ) / 137600000000000000000000000000000000000000000000000000000000000000000), ((48692667454516656337528025679294964100774499612113451108847052978958887003616200043680000507 : ℝ) / 23667200000000000000000000000000000000000000000000000000000000000000000000000000000000000000), ((275199999999999999999966814606538818520404364195499691299994959999883 : ℝ) / 275200000000000000000000000000000000000000000000000000000000000000000)] from by
    funext i
    fin_cases i <;> simp [cxB, cpB] <;> norm_num]
  rw [line_grad_formula _ _ _ normalizeB]
  simp only [cqB, vec3_zero, vec3_one, vec3_two, a, b]
  norm_num

lemma hgBb5 : line_grad (cxB + (-((114305244144069540829412215501063300017360000403 : ℝ) / 2752000000000000000000000000000000000000000000000)) • cpB) cpB = ((239426470695764855720231343392883844356058186264569434206767541978664039884623091099551009378986702707722564528592793725422394442520263135141247814229413136449139413400244431018531 : ℝ) / 2423521280000000000000000000000000000000000000000000000000000000000000000000000000000000000000000000000000000000000000000000000000000000000000000000000000000000000000000000000000000000) := by
  rw [show cxB + (-((114305244144069540829412215501063300017360000403 : ℝ) / 2752000000000000000000000000000000000000000000000)) • cpB =
      ![((1333581118625615102374489966039007394278116722815184480987454429999597 : ℝ) / 1376000000000000000000000000000000000000000000000000000000000000000000), ((486887095211813285575177994954287855733688496588105661458086214115908499037367400451360005239 : ℝ) / 236672000000000000000000000000000000000000000000000000000000000000000000000000000000000000000), ((2751999999999999999999657084267567791377511763353496810099947919998791 : ℝ) / 2752000000000000000000000000000000000000000000000000000000000000000000)] from by
    funext i
    fin_cases i <;> simp [cxB, cpB] <;> norm_num]
  rw [line_grad_formula _ _ _ normalizeB]
  simp only [cqB, vec3_zero, vec3_one, vec3_two, a, b]
  norm_num

lemma hgBb6 : line_grad (cxB + (-((232297754228270357169450631502160900035280000819 : ℝ) / 5504000000000000000000000000000000000000000000000)) • cpB) cpB = (-((26305478579723155473230066039829899186427191066801904945150284078693036170654258280200114640272229116182703284166993195516614938230711817792196851659742134653764628146000774756037373 : ℝ) / 19388170240000000000000000000000000000000000000000000000000000000000000000000000000000000000000000000000000000000000000000000000000000000000000000000000000000000000000000000000000000000)) := by
  rw [show cxB + (-((232297754228270357169450631502160900035280000819 : ℝ) / 5504000000000000000000000000000000000000000000000)) • cpB =
      ![((2588116466884314562890092511627660188371656565721181364587407389999181 : ℝ) / 2752000000000000000000000000000000000000000000000000000000000000000000), ((973734611090273293350253728069913926193320493643182473285788112558136627075940200917280010647 : ℝ) / 473344000000000000000000000000000000000000000000000000000000000000000000000000000000000000000), ((5503999999999999999999303106737315188928491648105493517299894159997543 : ℝ) / 5504000000000000000000000000000000000000000000000000000000000000000000)] from by
    funext i
    fin_cases i <;> simp [cxB, cpB] <;> norm_num]
  rw [line_grad_formula _ _ _ normalizeB]
  simp only [cqB, vec3_zero, vec3_one, vec3_two, a, b]
  norm_num

lemma hgBb7 : line_grad (cxB + (-((3687265940131275510626200500034300000560000013 : ℝ) / 88064000000000000000000000000000000000000000000)) • cpB) cpB = (-((32186861020883324366575222641698540175036561481712223038635685612489358821453229173315401492258317201931359584871224129142506849635115869385342962162082067186427464220729601859 : ℝ) / 79413945303040000000000000000000000000000000000000000000000000000000000000000000000000000000000000000000000000000000000000000000000000000000000000000000000000000000000000000000000)) := by
  rw [show cxB + (-((3687265940131275510626200500034300000560000013 : ℝ) / 88064000000000000000000000000000000000000000000)) • cpB =
      ![((42042229633084358141112579549645399815423120090812402612498529999987 : ℝ) / 44032000000000000000000000000000000000000000000000000000000000000000), ((15580070412111198916004877743827917101285579894555150369615684326319629001205400014560000169 : ℝ) / 7573504000000000000000000000000000000000000000000000000000000000000000000000000000000000000), ((88063999999999999999988938202179606173468121398499897099998319999961 : ℝ) / 88064000000000000000000000000000000000000000000000000000000000000000)] from by
    funext i
    fin_cases i <;> simp [cxB, cpB] <;> norm_num]
  rw [line_grad_formula _ _ _ normalizeB]
  simp only [cqB, vec3_zero, vec3_one, vec3_two, a, b]
  norm_num

lemma hgBb8 : line_grad (cxB + (-((918129219092687602145923924508540700139440003237 : ℝ) / 22016000000000000000000000000000000000000000000000)) • cpB) cpB = (-((131802545365164294207095874238514794759181955220128134073306520785372873268270035139719206536129648587629696627935135222205997004872477935422401600255801311658796613078214555170104891 : ℝ) / 1240842895360000000000000000000000000000000000000000000000000000000000000000000000000000000000000000000000000000000000000000000000000000000000000000000000000000000000000000000000000000000)) := by
  rw [show cxB + (-((918129219092687602145923924508540700139440003237 : ℝ) / 22016000000000000000000000000000000000000000000000)) • cpB =
      ![((10589603178638005177137032307861704554040356902612288250512133969996763 : ℝ) / 11008000000000000000000000000000000000000000000000000000000000000000000), ((3895057182361153006801321697795641060595451473171816442034305397253587621300144603625440042081 : ℝ) / 1893376000000000000000000000000000000000000000000000000000000000000000000000000000000000000000), ((22015999999999999999997245612342721937193562228226474377899581679990289 : ℝ) / 22016000000000000000000000000000000000000000000000000000000000000000000)] from by
    funext i
    fin_cases i <;> simp [cxB, cpB] <;> norm_num]
  rw [line_grad_formula _ _ _ normalizeB]
  simp only [cqB, vec3_zero, vec3_one, vec3_two, a, b]
  norm_num

lemma hgBb9 : line_grad (cxB + (-((1832571172245243928781221648517047100278320006461 : ℝ) / 44032000000000000000000000000000000000000000000000)) • cpB) cpB = ((68837011460951063501020521640737587920006965279837740212242186758675972635920857426004203284211116386620237706369357428633221260504393116840922668875216521174826029679995481881903693 : ℝ) / 9926743162880000000000000000000000000000000000000000000000000000000000000000000000000000000000000000000000000000000000000000000000000000000000000000000000000000000000000000000000000000000) := by
  rw [show cxB + (-((1832571172245243928781221648517047100278320006461 : ℝ) / 44032000000000000000000000000000000000000000000000)) • cpB =
      ![((21258252127642925996132952036173763708265290685133764098411769409993539 : ℝ) / 22016000000000000000000000000000000000000000000000000000000000000000000), ((7790153944055659291402745657429943906464959445876661733698995110180855613599083807236320083993 : ℝ) / 3786752000000000000000000000000000000000000000000000000000000000000000000000000000000000000000), ((44031999999999999999994502286483264268213656335054448858699165039980617 : ℝ) / 44032000000000000000000000000000000000000000000000000000000000000000000)] from by
    funext i
    fin_cases i <;> simp [cxB, cpB] <;> norm_num]
  rw [line_grad_formula _ _ _ normalizeB]
  simp only [cqB, vec3_zero, vec3_one, vec3_two, a, b]
  norm_num

lemma hgBb10 : line_grad (cxB + (-((733765922086123826614613899506825700111440002587 : ℝ) / 17612800000000000000000000000000000000000000000000)) • cpB) cpB = (-((29759226921440236768990624034087990835935892111121596701829016076304320363103401395546820922852029026779055855886335555537947712727644485162264362271541776587293088110417479680433541 : ℝ) / 635311562424320000000000000000000000000000000000000000000000000000000000000000000000000000000000000000000000000000000000000000000000000000000000000000000000000000000000000000000000000000)) := by
  rw [show cxB + (-((733765922086123826614613899506825700111440002587 : ℝ) / 17612800000000000000000000000000000000000000000000)) • cpB =
      ![((8487491696983787270081403330379434563269200898071668119887207469997413 : ℝ) / 8806400000000000000000000000000000000000000000000000000000000000000000), ((3116053661755593061001077810604245205531172478444058923553521180937606171239874602897440033631 : ℝ) / 1514700800000000000000000000000000000000000000000000000000000000000000000000000000000000000000), ((17612799999999999999997798702233741628520156158301479522899665679992239 : ℝ) / 17612800000000000000000000000000000000000000000000000000000000000000000)] from by
    funext i
    fin_cases i <;> simp [cxB, cpB] <;> norm_num]
  rw [line_grad_formula _ _ _ normalizeB]
  simp only [cqB, vec3_zero, vec3_one, vec3_two, a, b]
  norm_num

lemma hgBb11 : line_grad (cxB + (-((7333971954921106990635512794568222701113840025857 : ℝ) / 176128000000000000000000000000000000000000000000000)) • cpB) cpB = (-((12242995491434897156334756985079527070974859733190416771854528465459614024498614924991629651227328240923946537929589673563310930081309890105830033390308738472357209692769879326461559671 : ℝ) / 635311562424320000000000000000000000000000000000000000000000000000000000000000000000000000000000000000000000000000000000000000000000000000000000000000000000000000000000000000000000000000000)) := by
  rw [show cxB + (-((7333971954921106990635512794568222701113840025857 : ℝ) / 176128000000000000000000000000000000000000000000000)) • cpB =
      ![((84953962740204788342672920724244700232876585860625868796259576169974143 : ℝ) / 88064000000000000000000000000000000000000000000000000000000000000000000), ((31160576196889283887810880367881113840585781283973618085165596125049742083397540628959840336141 : ℝ) / 15147008000000000000000000000000000000000000000000000000000000000000000000000000000000000000000), ((176127999999999999999977998084135236679028093461616295331896658479922429 : ℝ) / 176128000000000000000000000000000000000000000000000000000000000000000000)] from by
    funext i
    fin_cases i <;> simp [cxB, cpB] <;> norm_num]
  rw [line_grad_formula _ _ _ normalizeB]
  simp only [cqB, vec3_zero, vec3_one, vec3_two, a, b]
  norm_num

lemma hgBb12 : line_grad (cxB + (-((14664256643902082705760399388636411102227120051701 : ℝ) / 352256000000000000000000000000000000000000000000000)) • cpB) cpB = (-((30493066305454601909692395151523737627962681904945583399815851079491038022393930234107794010165076846260378667223837098962570649842891925944606293802297968667529773906925056419199113547 : ℝ) / 5082492499394560000000000000000000000000000000000000000000000000000000000000000000000000000000000000000000000000000000000000000000000000000000000000000000000000000000000000000000000000000000)) := by
  rw [show cxB + (-((14664256643902082705760399388636411102227120051701 : ℝ) / 352256000000000000000000000000000000000000000000000)) • cpB =
      ![((169986971250776492327204728868939755065937748601160925189906653809948299 : ℝ) / 176128000000000000000000000000000000000000000000000000000000000000000000), ((62321191973111921053421862997600889466445619067480265019961576565773164537793875857905120672113 : ℝ) / 30294016000000000000000000000000000000000000000000000000000000000000000000000000000000000000000), ((352255999999999999999956007230068293751882718801834090766693318639844897 : ℝ) / 352256000000000000000000000000000000000000000000000000000000000000000000)] from by
    funext i
    fin_cases i <;> simp [cxB, cpB] <;> norm_num]
  rw [line_grad_formula _ _ _ normalizeB]
  simp only [cqB, vec3_zero, vec3_one, vec3_two, a, b]
  norm_num

lemma hgBb13 : line_grad (cxB + (-((29324826021864034136010172576772787904453680103389 : ℝ) / 704512000000000000000000000000000000000000000000000)) • cpB) cpB = ((20708189223984339397220788781510542926462732155027077150676923887353517045797328296131085337154768845951144481921476565693460133628354843741312115544985785811965614129799363604913062957 : ℝ) / 40659939995156480000000000000000000000000000000000000000000000000000000000000000000000000000000000000000000000000000000000000000000000000000000000000000000000000000000000000000000000000000000) := by
  rw [show cxB + (-((29324826021864034136010172576772787904453680103389 : ℝ) / 704512000000000000000000000000000000000000000000000)) • cpB =
      ![((340052988271919900296268345158329864732060074082231037977200809089896611 : ℝ) / 352256000000000000000000000000000000000000000000000000000000000000000000), ((124642423525557195384643828257040440718165294634493558889553537447220009446586546315795681344057 : ℝ) / 60588032000000000000000000000000000000000000000000000000000000000000000000000000000000000000000), ((704511999999999999999912025521934407897591969482269681636286638959689833 : ℝ) / 704512000000000000000000000000000000000000000000000000000000000000000000)] from by
    funext i
    fin_cases i <;> simp [cxB, cpB] <;> norm_num]
  rw [line_grad_formula _ _ _ normalizeB]
  simp only [cqB, vec3_zero, vec3_one, vec3_two, a, b]
  norm_num

lemma hgBb14 : line_grad (cxB + (-((58653339309668199547530971354045610108907920206791 : ℝ) / 1409024000000000000000000000000000000000000000000000)) • cpB) cpB = (-((889529828452271905616602390157811422713985749624093397009594683326497133194799741153216116816940293180411873831976567769204377813385750817897750001542094517394762104997384273557389068337 : ℝ) / 325279519961251840000000000000000000000000000000000000000000000000000000000000000000000000000000000000000000000000000000000000000000000000000000000000000000000000000000000000000000000000000000)) := by
  rw [show cxB + (-((58653339309668199547530971354045610108907920206791 : ℝ) / 1409024000000000000000000000000000000000000000000000)) • cpB =
      ![((680026930773472884950677802896209374863935571284552888357014116709793209 : ℝ) / 704512000000000000000000000000000000000000000000000000000000000000000000), ((249284807471781037491487554252242219651056532769454088929476690578766338522174298031605922688283 : ℝ) / 121176064000000000000000000000000000000000000000000000000000000000000000000000000000000000000000), ((1409023999999999999999824039982070995401357407085937863169673276239379627 : ℝ) / 1409024000000000000000000000000000000000000000000000000000000000000000000)] from by
    funext i
    fin_cases i <;> simp [cxB, cpB] <;> norm_num]
  rw [line_grad_formula _ _ _ normalizeB]
  simp only [cqB, vec3_zero, vec3_one, vec3_two, a, b]
  norm_num

lemma hgBb15 : line_grad (cxB + (-((117302991353396267819551316507591185917815280413569 : ℝ) / 2818048000000000000000000000000000000000000000000000)) • cpB) cpB = (-((2888637212267700825878872537923252480777888037058046718444375653795775417621053479534749480215584059392706381658573945944396933347388425946045554040981867136645738562385199696659866437623 : ℝ) / 2602236159690014720000000000000000000000000000000000000000000000000000000000000000000000000000000000000000000000000000000000000000000000000000000000000000000000000000000000000000000000000000000)) := by
  rw [show cxB + (-((117302991353396267819551316507591185917815280413569 : ℝ) / 2818048000000000000000000000000000000000000000000000)) • cpB =
      ![((1360132907317312685543214493212869104328055719449014964311415734889586431 : ℝ) / 1409024000000000000000000000000000000000000000000000000000000000000000000), ((498569654522895428260775210766323101087387122038441206708583765473206357415347390663197285376397 : ℝ) / 242352128000000000000000000000000000000000000000000000000000000000000000000000000000000000000000), ((2818047999999999999999648091025939811196541346050477226442246554158759293 : ℝ) / 2818048000000000000000000000000000000000000000000000000000000000000000000)] from by
    funext i
    fin_cases i <;> simp [cxB, cpB] <;> norm_num]
  rw [line_grad_formula _ _ _ normalizeB]
  simp only [cqB, vec3_zero, vec3_one, vec3_two, a, b]
  norm_num

lemma hgBb16 : line_grad (cxB + (-((1876818363526819234908736054517458700285040006617 : ℝ) / 45088768000000000000000000000000000000000000000000)) • cpB) cpB = (-((3194687150828454198275530279760463587324563663124985777792407176197889857720032441257521769513209888391193804647353950279178477150566369118036349776421480801948253605360603428873711 : ℝ) / 10658759310090300293120000000000000000000000000000000000000000000000000000000000000000000000000000000000000000000000000000000000000000000000000000000000000000000000000000000000000000000000)) := by
  rw [show cxB + (-((1876818363526819234908736054517458700285040006617 : ℝ) / 45088768000000000000000000000000000000000000000000)) • cpB =
      ![((21762758883239938293826302990769508506050368126223512929761751769993383 : ℝ) / 22544384000000000000000000000000000000000000000000000000000000000000000), ((7977114789000993678394804190355878911680386404611323538134383322096691161613548607411040086021 : ℝ) / 3877634048000000000000000000000000000000000000000000000000000000000000000000000000000000000000), ((45088767999999999999994369544909419542295273791836447623899144879980149 : ℝ) / 45088768000000000000000000000000000000000000000000000000000000000000000)] from by
    funext i
    fin_cases i <;> simp [cxB, cpB] <;> norm_num]
  rw [line_grad_formula _ _ _ normalizeB]
  simp only [cqB, vec3_zero, vec3_one, vec3_two, a, b]
  norm_num

lemma hgBb17 : line_grad (cxB + (-((469200903615764677451673387428864640771259441654237 : ℝ) / 11272192000000000000000000000000000000000000000000000)) • cpB) cpB = ((406491285370507354074136534614258719404452086195101945160435361140732099817950964684727024164075520282897203217526625962483470271161890439630837680333903420140180201466850377805800153863 : ℝ) / 3873095679538626560000000000000000000000000000000000000000000000000000000000000000000000000000000000000000000000000000000000000000000000000000000000000000000000000000000000000000000000000000000) := by
  rw [show cxB + (-((469200903615764677451673387428864640771259441654237 : ℝ) / 11272192000000000000000000000000000000000000000000000)) • cpB =
      ![((5440768766580351489098434635112827481112776608435787420037825443968345763 : ℝ) / 5636096000000000000000000000000000000000000000000000000000000000000000000), ((1994278736829581772876501149850808389705370657652363913383226214839846470774385946452745461505081 : ℝ) / 969408512000000000000000000000000000000000000000000000000000000000000000000000000000000000000000), ((11272191999999999999998592397289152705967644979837713406077686221675037289 : ℝ) / 11272192000000000000000000000000000000000000000000000000000000000000000000)] from by
    funext i
    fin_cases i <;> simp [cxB, cpB] <;> norm_num]
  rw [line_grad_formula _ _ _ normalizeB]
  simp only [cqB, vec3_zero, vec3_one, vec3_two, a, b]
  norm_num

lemma hgBb18 : line_grad (cxB + (-((938405494497469486178857401058229315842519443308487 : ℝ) / 22544384000000000000000000000000000000000000000000000)) • cpB) cpB = (-((129696940604453959304121736364930008693362943624687660966208175256346507686196426049534188608529940807591892119738059382856750262550672738398706851907715579994482805046929799187620480494641 : ℝ) / 1332344913761287536640000000000000000000000000000000000000000000000000000000000000000000000000000000000000000000000000000000000000000000000000000000000000000000000000000000000000000000000000000000)) := by
  rw [show cxB + (-((938405494497469486178857401058229315842519443308487 : ℝ) / 22544384000000000000000000000000000000000000000000000)) • cpB =
      ![((10881458487390336062555010382805204607625368639991665652478263386466691513 : ℝ) / 11272192000000000000000000000000000000000000000000000000000000000000000000), ((3988557434079830192475202197439778117625467258805194797916822045364019261177773098305505483010331 : ℝ) / 1938817024000000000000000000000000000000000000000000000000000000000000000000000000000000000000000), ((22544383999999999999997184783516507591541463427796825312052472441670074539 : ℝ) / 22544384000000000000000000000000000000000000000000000000000000000000000000)] from by
    funext i
    fin_cases i <;> simp [cxB, cpB] <;> norm_num]
  rw [line_grad_formula _ _ _ normalizeB]
  simp only [cqB, vec3_zero, vec3_one, vec3_two, a, b]
  norm_num

lemma hgBb19 : line_grad (cxB + (-((1876807301728998841082204175915958597385038326616961 : ℝ) / 45088768000000000000000000000000000000000000000000000)) • cpB) cpB = ((40653245702717820304286900084962738497868658342891810306779869987672009648966291967917880831241306464524059742043209929800331157091731122512421749102823920974814592100726940986414562013193 : ℝ) / 10658759310090300293120000000000000000000000000000000000000000000000000000000000000000000000000000000000000000000000000000000000000000000000000000000000000000000000000000000000000000000000000000000) := by
  rw [show cxB + (-((1876807301728998841082204175915958597385038326616961 : ℝ) / 45088768000000000000000000000000000000000000000000000)) • cpB =
      ![((21762996020551039040751879653030859569850921856863240492553914274403383039 : ℝ) / 22544384000000000000000000000000000000000000000000000000000000000000000000), ((7977114907738993738228204497141394897036208574109922624683274475043712202726544991210996406020493 : ℝ) / 3877634048000000000000000000000000000000000000000000000000000000000000000000000000000000000000000), ((45088767999999999999994369578094813003476753387472252124207844885020149117 : ℝ) / 45088768000000000000000000000000000000000000000000000000000000000000000000)] from by
    funext i
    fin_cases i <;> simp [cxB, cpB] <;> norm_num]
  rw [line_grad_formula _ _ _ normalizeB]
  simp only [cqB, vec3_zero, vec3_one, vec3_two, a, b]
  norm_num

lemma bB20 : bisectLoop cxB cpB 1e-7 (-((938405494497469486178857401058229315842519443308487 : ℝ) / 22544384000000000000000000000000000000000000000000000)) (-((1876807301728998841082204175915958597385038326616961 : ℝ) / 45088768000000000000000000000000000000000000000000000)) (some (-((1876807301728998841082204175915958597385038326616961 : ℝ) / 45088768000000000000000000000000000000000000000000000))) 981 =
    some ((-((938405494497469486178857401058229315842519443308487 : ℝ) / 22544384000000000000000000000000000000000000000000000)), (-((1876807301728998841082204175915958597385038326616961 : ℝ) / 45088768000000000000000000000000000000000000000000000)), some (-((1876807301728998841082204175915958597385038326616961 : ℝ) / 45088768000000000000000000000000000000000000000000000))) := by
  rw [bisectLoop.eq_def,
    if_neg (show ¬ ((1e-7 : ℝ) < (-((1876807301728998841082204175915958597385038326616961 : ℝ) / 45088768000000000000000000000000000000000000000000000)) - (-((938405494497469486178857401058229315842519443308487 : ℝ) / 22544384000000000000000000000000000000000000000000000))) from by norm_num)]

lemma bB19 : bisectLoop cxB cpB 1e-7 (-((938405494497469486178857401058229315842519443308487 : ℝ) / 22544384000000000000000000000000000000000000000000000)) (-((469200903615764677451673387428864640771259441654237 : ℝ) / 11272192000000000000000000000000000000000000000000000)) (some (-((938405494497469486178857401058229315842519443308487 : ℝ) / 22544384000000000000000000000000000000000000000000000))) 982 =
    some ((-((938405494497469486178857401058229315842519443308487 : ℝ) / 22544384000000000000000000000000000000000000000000000)), (-((1876807301728998841082204175915958597385038326616961 : ℝ) / 45088768000000000000000000000000000000000000000000000)), some (-((1876807301728998841082204175915958597385038326616961 : ℝ) / 45088768000000000000000000000000000000000000000000000))) := by
  rw [bisectLoop.eq_def,
    show (((-((469200903615764677451673387428864640771259441654237 : ℝ) / 11272192000000000000000000000000000000000000000000000)) + (-((938405494497469486178857401058229315842519443308487 : ℝ) / 22544384000000000000000000000000000000000000000000000))) / 2) = (-((1876807301728998841082204175915958597385038326616961 : ℝ) / 45088768000000000000000000000000000000000000000000000)) from by norm_num,
    show ((982 : ℕ) - 1) = (981 : ℕ) from by norm_num,
    if_pos (show ((1e-7 : ℝ) < (-((469200903615764677451673387428864640771259441654237 : ℝ) / 11272192000000000000000000000000000000000000000000000)) - (-((938405494497469486178857401058229315842519443308487 : ℝ) / 22544384000000000000000000000000000000000000000000000))) from by norm_num),
    dif_neg (show ¬ ((982 : ℕ) ≤ 1) from by norm_num),
    if_pos (show (0 : ℝ) < line_grad (cxB + (-((1876807301728998841082204175915958597385038326616961 : ℝ) / 45088768000000000000000000000000000000000000000000000)) • cpB) cpB from by
      rw [hgBb19]; norm_num)]
  exact bB20

lemma bB18 : bisectLoop cxB cpB 1e-7 (-((1876818363526819234908736054517458700285040006617 : ℝ) / 45088768000000000000000000000000000000000000000000)) (-((469200903615764677451673387428864640771259441654237 : ℝ) / 11272192000000000000000000000000000000000000000000000)) (some (-((469200903615764677451673387428864640771259441654237 : ℝ) / 11272192000000000000000000000000000000000000000000000))) 983 =
    some ((-((938405494497469486178857401058229315842519443308487 : ℝ) / 22544384000000000000000000000000000000000000000000000)), (-((1876807301728998841082204175915958597385038326616961 : ℝ) / 45088768000000000000000000000000000000000000000000000)), some (-((1876807301728998841082204175915958597385038326616961 : ℝ) / 45088768000000000000000000000000000000000000000000000))) := by
  rw [bisectLoop.eq_def,
    show (((-((469200903615764677451673387428864640771259441654237 : ℝ) / 11272192000000000000000000000000000000000000000000000)) + (-((1876818363526819234908736054517458700285040006617 : ℝ) / 45088768000000000000000000000000000000000000000000))) / 2) = (-((938405494497469486178857401058229315842519443308487 : ℝ) / 22544384000000000000000000000000000000000000000000000)) from by norm_num,
    show ((983 : ℕ) - 1) = (982 : ℕ) from by norm_num,
    if_pos (show ((1e-7 : ℝ) < (-((469200903615764677451673387428864640771259441654237 : ℝ) / 11272192000000000000000000000000000000000000000000000)) - (-((1876818363526819234908736054517458700285040006617 : ℝ) / 45088768000000000000000000000000000000000000000000))) from by norm_num),
    dif_neg (show ¬ ((983 : ℕ) ≤ 1) from by norm_num),
    if_neg (show ¬ ((0 : ℝ) < line_grad (cxB + (-((938405494497469486178857401058229315842519443308487 : ℝ) / 22544384000000000000000000000000000000000000000000000)) • cpB) cpB) from by
      rw [hgBb18]; norm_num)]
  exact bB19

lemma bB17 : bisectLoop cxB cpB 1e-7 (-((1876818363526819234908736054517458700285040006617 : ℝ) / 45088768000000000000000000000000000000000000000000)) (-((29324826021864034136010172576772787904453680103389 : ℝ) / 704512000000000000000000000000000000000000000000000)) (some (-((1876818363526819234908736054517458700285040006617 : ℝ) / 45088768000000000000000000000000000000000000000000))) 984 =
    some ((-((938405494497469486178857401058229315842519443308487 : ℝ) / 22544384000000000000000000000000000000000000000000000)), (-((1876807301728998841082204175915958597385038326616961 : ℝ) / 45088768000000000000000000000000000000000000000000000)), some (-((1876807301728998841082204175915958597385038326616961 : ℝ) / 45088768000000000000000000000000000000000000000000000))) := by
  rw [bisectLoop.eq_def,
    show (((-((29324826021864034136010172576772787904453680103389 : ℝ) / 704512000000000000000000000000000000000000000000000)) + (-((1876818363526819234908736054517458700285040006617 : ℝ) / 45088768000000000000000000000000000000000000000000))) / 2) = (-((469200903615764677451673387428864640771259441654237 : ℝ) / 11272192000000000000000000000000000000000000000000000)) from by norm_num,
    show ((984 : ℕ) - 1) = (983 : ℕ) from by norm_num,
    if_pos (show ((1e-7 : ℝ) < (-((29324826021864034136010172576772787904453680103389 : ℝ) / 704512000000000000000000000000000000000000000000000)) - (-((1876818363526819234908736054517458700285040006617 : ℝ) / 45088768000000000000000000000000000000000000000000))) from by norm_num),
    dif_neg (show ¬ ((984 : ℕ) ≤ 1) from by norm_num),
    if_pos (show (0 : ℝ) < line_grad (cxB + (-((469200903615764677451673387428864640771259441654237 : ℝ) / 11272192000000000000000000000000000000000000000000000)) • cpB) cpB from by
      rw [hgBb17]; norm_num)]
  exact bB18

lemma bB16 : bisectLoop cxB cpB 1e-7 (-((117302991353396267819551316507591185917815280413569 : ℝ) / 2818048000000000000000000000000000000000000000000000)) (-((29324826021864034136010172576772787904453680103389 : ℝ) / 704512000000000000000000000000000000000000000000000)) (some (-((117302991353396267819551316507591185917815280413569 : ℝ) / 2818048000000000000000000000000000000000000000000000))) 985 =
    some ((-((938405494497469486178857401058229315842519443308487 : ℝ) / 22544384000000000000000000000000000000000000000000000)), (-((1876807301728998841082204175915958597385038326616961 : ℝ) / 45088768000000000000000000000000000000000000000000000)), some (-((1876807301728998841082204175915958597385038326616961 : ℝ) / 45088768000000000000000000000000000000000000000000000))) := by
  rw [bisectLoop.eq_def,
    show (((-((29324826021864034136010172576772787904453680103389 : ℝ) / 704512000000000000000000000000000000000000000000000)) + (-((117302991353396267819551316507591185917815280413569 : ℝ) / 2818048000000000000000000000000000000000000000000000))) / 2) = (-((1876818363526819234908736054517458700285040006617 : ℝ) / 45088768000000000000000000000000000000000000000000)) from by norm_num,
    show ((985 : ℕ) - 1) = (984 : ℕ) from by norm_num,
    if_pos (show ((1e-7 : ℝ) < (-((29324826021864034136010172576772787904453680103389 : ℝ) / 704512000000000000000000000000000000000000000000000)) - (-((117302991353396267819551316507591185917815280413569 : ℝ) / 2818048000000000000000000000000000000000000000000000))) from by norm_num),
    dif_neg (show ¬ ((985 : ℕ) ≤ 1) from by norm_num),
    if_neg (show ¬ ((0 : ℝ) < line_grad (cxB + (-((1876818363526819234908736054517458700285040006617 : ℝ) / 45088768000000000000000000000000000000000000000000)) • cpB) cpB) from by
      rw [hgBb16]; norm_num)]
  exact bB17

lemma bB15 : bisectLoop cxB cpB 1e-7 (-((58653339309668199547530971354045610108907920206791 : ℝ) / 1409024000000000000000000000000000000000000000000000)) (-((29324826021864034136010172576772787904453680103389 : ℝ) / 704512000000000000000000000000000000000000000000000)) (some (-((58653339309668199547530971354045610108907920206791 : ℝ) / 1409024000000000000000000000000000000000000000000000))) 986 =
    some ((-((938405494497469486178857401058229315842519443308487 : ℝ) / 22544384000000000000000000000000000000000000000000000)), (-((1876807301728998841082204175915958597385038326616961 : ℝ) / 45088768000000000000000000000000000000000000000000000)), some (-((1876807301728998841082204175915958597385038326616961 : ℝ) / 45088768000000000000000000000000000000000000000000000))) := by
  rw [bisectLoop.eq_def,
    show (((-((29324826021864034136010172576772787904453680103389 : ℝ) / 704512000000000000000000000000000000000000000000000)) + (-((58653339309668199547530971354045610108907920206791 : ℝ) / 1409024000000000000000000000000000000000000000000000))) / 2) = (-((117302991353396267819551316507591185917815280413569 : ℝ) / 2818048000000000000000000000000000000000000000000000)) from by norm_num,
    show ((986 : ℕ) - 1) = (985 : ℕ) from by norm_num,
    if_pos (show ((1e-7 : ℝ) < (-((29324826021864034136010172576772787904453680103389 : ℝ) / 704512000000000000000000000000000000000000000000000)) - (-((58653339309668199547530971354045610108907920206791 : ℝ) / 1409024000000000000000000000000000000000000000000000))) from by norm_num),
    dif_neg (show ¬ ((986 : ℕ) ≤ 1) from by norm_num),
    if_neg (show ¬ ((0 : ℝ) < line_grad (cxB + (-((117302991353396267819551316507591185917815280413569 : ℝ) / 2818048000000000000000000000000000000000000000000000)) • cpB) cpB) from by
      rw [hgBb15]; norm_num)]
  exact bB16

lemma bB14 : bisectLoop cxB cpB 1e-7 (-((14664256643902082705760399388636411102227120051701 : ℝ) / 352256000000000000000000000000000000000000000000000)) (-((29324826021864034136010172576772787904453680103389 : ℝ) / 704512000000000000000000000000000000000000000000000)) (some (-((29324826021864034136010172576772787904453680103389 : ℝ) / 704512000000000000000000000000000000000000000000000))) 987 =
    some ((-((938405494497469486178857401058229315842519443308487 : ℝ) / 22544384000000000000000000000000000000000000000000000)), (-((1876807301728998841082204175915958597385038326616961 : ℝ) / 45088768000000000000000000000000000000000000000000000)), some (-((1876807301728998841082204175915958597385038326616961 : ℝ) / 45088768000000000000000000000000000000000000000000000))) := by
  rw [bisectLoop.eq_def,
    show (((-((29324826021864034136010172576772787904453680103389 : ℝ) / 704512000000000000000000000000000000000000000000000)) + (-((14664256643902082705760399388636411102227120051701 : ℝ) / 352256000000000000000000000000000000000000000000000))) / 2) = (-((58653339309668199547530971354045610108907920206791 : ℝ) / 1409024000000000000000000000000000000000000000000000)) from by norm_num,
    show ((987 : ℕ) - 1) = (986 : ℕ) from by norm_num,
    if_pos (show ((1e-7 : ℝ) < (-((29324826021864034136010172576772787904453680103389 : ℝ) / 704512000000000000000000000000000000000000000000000)) - (-((14664256643902082705760399388636411102227120051701 : ℝ) / 352256000000000000000000000000000000000000000000000))) from by norm_num),
    dif_neg (show ¬ ((987 : ℕ) ≤ 1) from by norm_num),
    if_neg (show ¬ ((0 : ℝ) < line_grad (cxB + (-((58653339309668199547530971354045610108907920206791 : ℝ) / 1409024000000000000000000000000000000000000000000000)) • cpB) cpB) from by
      rw [hgBb14]; norm_num)]
  exact bB15

lemma bB13 : bisectLoop cxB cpB 1e-7 (-((14664256643902082705760399388636411102227120051701 : ℝ) / 352256000000000000000000000000000000000000000000000)) (-((1832571172245243928781221648517047100278320006461 : ℝ) / 44032000000000000000000000000000000000000000000000)) (some (-((14664256643902082705760399388636411102227120051701 : ℝ) / 352256000000000000000000000000000000000000000000000))) 988 =
    some ((-((938405494497469486178857401058229315842519443308487 : ℝ) / 22544384000000000000000000000000000000000000000000000)), (-((1876807301728998841082204175915958597385038326616961 : ℝ) / 45088768000000000000000000000000000000000000000000000)), some (-((1876807301728998841082204175915958597385038326616961 : ℝ) / 45088768000000000000000000000000000000000000000000000))) := by
  rw [bisectLoop.eq_def,
    show (((-((1832571172245243928781221648517047100278320006461 : ℝ) / 44032000000000000000000000000000000000000000000000)) + (-((14664256643902082705760399388636411102227120051701 : ℝ) / 352256000000000000000000000000000000000000000000000))) / 2) = (-((29324826021864034136010172576772787904453680103389 : ℝ) / 704512000000000000000000000000000000000000000000000)) from by norm_num,
    show ((988 : ℕ) - 1) = (987 : ℕ) from by norm_num,
    if_pos (show ((1e-7 : ℝ) < (-((1832571172245243928781221648517047100278320006461 : ℝ) / 44032000000000000000000000000000000000000000000000)) - (-((14664256643902082705760399388636411102227120051701 : ℝ) / 352256000000000000000000000000000000000000000000000))) from by norm_num),
    dif_neg (show ¬ ((988 : ℕ) ≤ 1) from by norm_num),
    if_pos (show (0 : ℝ) < line_grad (cxB + (-((29324826021864034136010172576772787904453680103389 : ℝ) / 704512000000000000000000000000000000000000000000000)) • cpB) cpB from by
      rw [hgBb13]; norm_num)]
  exact bB14

lemma bB12 : bisectLoop cxB cpB 1e-7 (-((7333971954921106990635512794568222701113840025857 : ℝ) / 176128000000000000000000000000000000000000000000000)) (-((1832571172245243928781221648517047100278320006461 : ℝ) / 44032000000000000000000000000000000000000000000000)) (some (-((7333971954921106990635512794568222701113840025857 : ℝ) / 176128000000000000000000000000000000000000000000000))) 989 =
    some ((-((938405494497469486178857401058229315842519443308487 : ℝ) / 22544384000000000000000000000000000000000000000000000)), (-((1876807301728998841082204175915958597385038326616961 : ℝ) / 45088768000000000000000000000000000000000000000000000)), some (-((1876807301728998841082204175915958597385038326616961 : ℝ) / 45088768000000000000000000000000000000000000000000000))) := by
  rw [bisectLoop.eq_def,
    show (((-((1832571172245243928781221648517047100278320006461 : ℝ) / 44032000000000000000000000000000000000000000000000)) + (-((7333971954921106990635512794568222701113840025857 : ℝ) / 176128000000000000000000000000000000000000000000000))) / 2) = (-((14664256643902082705760399388636411102227120051701 : ℝ) / 352256000000000000000000000000000000000000000000000)) from by norm_num,
    show ((989 : ℕ) - 1) = (988 : ℕ) from by norm_num,
    if_pos (show ((1e-7 : ℝ) < (-((1832571172245243928781221648517047100278320006461 : ℝ) / 44032000000000000000000000000000000000000000000000)) - (-((7333971954921106990635512794568222701113840025857 : ℝ) / 176128000000000000000000000000000000000000000000000))) from by norm_num),
    dif_neg (show ¬ ((989 : ℕ) ≤ 1) from by norm_num),
    if_neg (show ¬ ((0 : ℝ) < line_grad (cxB + (-((14664256643902082705760399388636411102227120051701 : ℝ) / 352256000000000000000000000000000000000000000000000)) • cpB) cpB) from by
      rw [hgBb12]; norm_num)]
  exact bB13

lemma bB11 : bisectLoop cxB cpB 1e-7 (-((733765922086123826614613899506825700111440002587 : ℝ) / 17612800000000000000000000000000000000000000000000)) (-((1832571172245243928781221648517047100278320006461 : ℝ) / 44032000000000000000000000000000000000000000000000)) (some (-((733765922086123826614613899506825700111440002587 : ℝ) / 17612800000000000000000000000000000000000000000000))) 990 =
    some ((-((938405494497469486178857401058229315842519443308487 : ℝ) / 22544384000000000000000000000000000000000000000000000)), (-((1876807301728998841082204175915958597385038326616961 : ℝ) / 45088768000000000000000000000000000000000000000000000)), some (-((1876807301728998841082204175915958597385038326616961 : ℝ) / 45088768000000000000000000000000000000000000000000000))) := by
  rw [bisectLoop.eq_def,
    show (((-((1832571172245243928781221648517047100278320006461 : ℝ) / 44032000000000000000000000000000000000000000000000)) + (-((733765922086123826614613899506825700111440002587 : ℝ) / 17612800000000000000000000000000000000000000000000))) / 2) = (-((7333971954921106990635512794568222701113840025857 : ℝ) / 176128000000000000000000000000000000000000000000000)) from by norm_num,
    show ((990 : ℕ) - 1) = (989 : ℕ) from by norm_num,
    if_pos (show ((1e-7 : ℝ) < (-((1832571172245243928781221648517047100278320006461 : ℝ) / 44032000000000000000000000000000000000000000000000)) - (-((733765922086123826614613899506825700111440002587 : ℝ) / 17612800000000000000000000000000000000000000000000))) from by norm_num),
    dif_neg (show ¬ ((990 : ℕ) ≤ 1) from by norm_num),
    if_neg (show ¬ ((0 : ℝ) < line_grad (cxB + (-((7333971954921106990635512794568222701113840025857 : ℝ) / 176128000000000000000000000000000000000000000000000)) • cpB) cpB) from by
      rw [hgBb11]; norm_num)]
  exact bB12

lemma bB10 : bisectLoop cxB cpB 1e-7 (-((918129219092687602145923924508540700139440003237 : ℝ) / 22016000000000000000000000000000000000000000000000)) (-((1832571172245243928781221648517047100278320006461 : ℝ) / 44032000000000000000000000000000000000000000000000)) (some (-((1832571172245243928781221648517047100278320006461 : ℝ) / 44032000000000000000000000000000000000000000000000))) 991 =
    some ((-((938405494497469486178857401058229315842519443308487 : ℝ) / 22544384000000000000000000000000000000000000000000000)), (-((1876807301728998841082204175915958597385038326616961 : ℝ) / 45088768000000000000000000000000000000000000000000000)), some (-((1876807301728998841082204175915958597385038326616961 : ℝ) / 45088768000000000000000000000000000000000000000000000))) := by
  rw [bisectLoop.eq_def,
    show (((-((1832571172245243928781221648517047100278320006461 : ℝ) / 44032000000000000000000000000000000000000000000000)) + (-((918129219092687602145923924508540700139440003237 : ℝ) / 22016000000000000000000000000000000000000000000000))) / 2) = (-((733765922086123826614613899506825700111440002587 : ℝ) / 17612800000000000000000000000000000000000000000000)) from by norm_num,
    show ((991 : ℕ) - 1) = (990 : ℕ) from by norm_num,
    if_pos (show ((1e-7 : ℝ) < (-((1832571172245243928781221648517047100278320006461 : ℝ) / 44032000000000000000000000000000000000000000000000)) - (-((918129219092687602145923924508540700139440003237 : ℝ) / 22016000000000000000000000000000000000000000000000))) from by norm_num),
    dif_neg (show ¬ ((991 : ℕ) ≤ 1) from by norm_num),
    if_neg (show ¬ ((0 : ℝ) < line_grad (cxB + (-((733765922086123826614613899506825700111440002587 : ℝ) / 17612800000000000000000000000000000000000000000000)) • cpB) cpB) from by
      rw [hgBb10]; norm_num)]
  exact bB11

lemma bB9 : bisectLoop cxB cpB 1e-7 (-((918129219092687602145923924508540700139440003237 : ℝ) / 22016000000000000000000000000000000000000000000000)) (-((114305244144069540829412215501063300017360000403 : ℝ) / 2752000000000000000000000000000000000000000000000)) (some (-((918129219092687602145923924508540700139440003237 : ℝ) / 22016000000000000000000000000000000000000000000000))) 992 =
    some ((-((938405494497469486178857401058229315842519443308487 : ℝ) / 22544384000000000000000000000000000000000000000000000)), (-((1876807301728998841082204175915958597385038326616961 : ℝ) / 45088768000000000000000000000000000000000000000000000)), some (-((1876807301728998841082204175915958597385038326616961 : ℝ) / 45088768000000000000000000000000000000000000000000000))) := by
  rw [bisectLoop.eq_def,
    show (((-((114305244144069540829412215501063300017360000403 : ℝ) / 2752000000000000000000000000000000000000000000000)) + (-((918129219092687602145923924508540700139440003237 : ℝ) / 22016000000000000000000000000000000000000000000000))) / 2) = (-((1832571172245243928781221648517047100278320006461 : ℝ) / 44032000000000000000000000000000000000000000000000)) from by norm_num,
    show ((992 : ℕ) - 1) = (991 : ℕ) from by norm_num,
    if_pos (show ((1e-7 : ℝ) < (-((114305244144069540829412215501063300017360000403 : ℝ) / 2752000000000000000000000000000000000000000000000)) - (-((918129219092687602145923924508540700139440003237 : ℝ) / 22016000000000000000000000000000000000000000000000))) from by norm_num),
    dif_neg (show ¬ ((992 : ℕ) ≤ 1) from by norm_num),
    if_pos (show (0 : ℝ) < line_grad (cxB + (-((1832571172245243928781221648517047100278320006461 : ℝ) / 44032000000000000000000000000000000000000000000000)) • cpB) cpB from by
      rw [hgBb9]; norm_num)]
  exact bB10

lemma bB8 : bisectLoop cxB cpB 1e-7 (-((3687265940131275510626200500034300000560000013 : ℝ) / 88064000000000000000000000000000000000000000000)) (-((114305244144069540829412215501063300017360000403 : ℝ) / 2752000000000000000000000000000000000000000000000)) (some (-((3687265940131275510626200500034300000560000013 : ℝ) / 88064000000000000000000000000000000000000000000))) 993 =
    some ((-((938405494497469486178857401058229315842519443308487 : ℝ) / 22544384000000000000000000000000000000000000000000000)), (-((1876807301728998841082204175915958597385038326616961 : ℝ) / 45088768000000000000000000000000000000000000000000000)), some (-((1876807301728998841082204175915958597385038326616961 : ℝ) / 45088768000000000000000000000000000000000000000000000))) := by
  rw [bisectLoop.eq_def,
    show (((-((114305244144069540829412215501063300017360000403 : ℝ) / 2752000000000000000000000000000000000000000000000)) + (-((3687265940131275510626200500034300000560000013 : ℝ) / 88064000000000000000000000000000000000000000000))) / 2) = (-((918129219092687602145923924508540700139440003237 : ℝ) / 22016000000000000000000000000000000000000000000000)) from by norm_num,
    show ((993 : ℕ) - 1) = (992 : ℕ) from by norm_num,
    if_pos (show ((1e-7 : ℝ) < (-((114305244144069540829412215501063300017360000403 : ℝ) / 2752000000000000000000000000000000000000000000000)) - (-((3687265940131275510626200500034300000560000013 : ℝ) / 88064000000000000000000000000000000000000000000))) from by norm_num),
    dif_neg (show ¬ ((993 : ℕ) ≤ 1) from by norm_num),
    if_neg (show ¬ ((0 : ℝ) < line_grad (cxB + (-((918129219092687602145923924508540700139440003237 : ℝ) / 22016000000000000000000000000000000000000000000000)) • cpB) cpB) from by
      rw [hgBb8]; norm_num)]
  exact bB9

lemma bB7 : bisectLoop cxB cpB 1e-7 (-((232297754228270357169450631502160900035280000819 : ℝ) / 5504000000000000000000000000000000000000000000000)) (-((114305244144069540829412215501063300017360000403 : ℝ) / 2752000000000000000000000000000000000000000000000)) (some (-((232297754228270357169450631502160900035280000819 : ℝ) / 5504000000000000000000000000000000000000000000000))) 994 =
    some ((-((938405494497469486178857401058229315842519443308487 : ℝ) / 22544384000000000000000000000000000000000000000000000)), (-((1876807301728998841082204175915958597385038326616961 : ℝ) / 45088768000000000000000000000000000000000000000000000)), some (-((1876807301728998841082204175915958597385038326616961 : ℝ) / 45088768000000000000000000000000000000000000000000000))) := by
  rw [bisectLoop.eq_def,
    show (((-((114305244144069540829412215501063300017360000403 : ℝ) / 2752000000000000000000000000000000000000000000000)) + (-((232297754228270357169450631502160900035280000819 : ℝ) / 5504000000000000000000000000000000000000000000000))) / 2) = (-((3687265940131275510626200500034300000560000013 : ℝ) / 88064000000000000000000000000000000000000000000)) from by norm_num,
    show ((994 : ℕ) - 1) = (993 : ℕ) from by norm_num,
    if_pos (show ((1e-7 : ℝ) < (-((114305244144069540829412215501063300017360000403 : ℝ) / 2752000000000000000000000000000000000000000000000)) - (-((232297754228270357169450631502160900035280000819 : ℝ) / 5504000000000000000000000000000000000000000000000))) from by norm_num),
    dif_neg (show ¬ ((994 : ℕ) ≤ 1) from by norm_num),
    if_neg (show ¬ ((0 : ℝ) < line_grad (cxB + (-((3687265940131275510626200500034300000560000013 : ℝ) / 88064000000000000000000000000000000000000000000)) • cpB) cpB) from by
      rw [hgBb7]; norm_num)]
  exact bB8

lemma bB6 : bisectLoop cxB cpB 1e-7 (-((3687265940131275510626200500034300000560000013 : ℝ) / 86000000000000000000000000000000000000000000000)) (-((114305244144069540829412215501063300017360000403 : ℝ) / 2752000000000000000000000000000000000000000000000)) (some (-((114305244144069540829412215501063300017360000403 : ℝ) / 2752000000000000000000000000000000000000000000000))) 995 =
    some ((-((938405494497469486178857401058229315842519443308487 : ℝ) / 22544384000000000000000000000000000000000000000000000)), (-((1876807301728998841082204175915958597385038326616961 : ℝ) / 45088768000000000000000000000000000000000000000000000)), some (-((1876807301728998841082204175915958597385038326616961 : ℝ) / 45088768000000000000000000000000000000000000000000000))) := by
  rw [bisectLoop.eq_def,
    show (((-((114305244144069540829412215501063300017360000403 : ℝ) / 2752000000000000000000000000000000000000000000000)) + (-((3687265940131275510626200500034300000560000013 : ℝ) / 86000000000000000000000000000000000000000000000))) / 2) = (-((232297754228270357169450631502160900035280000819 : ℝ) / 5504000000000000000000000000000000000000000000000)) from by norm_num,
    show ((995 : ℕ) - 1) = (994 : ℕ) from by norm_num,
    if_pos (show ((1e-7 : ℝ) < (-((114305244144069540829412215501063300017360000403 : ℝ) / 2752000000000000000000000000000000000000000000000)) - (-((3687265940131275510626200500034300000560000013 : ℝ) / 86000000000000000000000000000000000000000000000))) from by norm_num),
    dif_neg (show ¬ ((995 : ℕ) ≤ 1) from by norm_num),
    if_neg (show ¬ ((0 : ℝ) < line_grad (cxB + (-((232297754228270357169450631502160900035280000819 : ℝ) / 5504000000000000000000000000000000000000000000000)) • cpB) cpB) from by
      rw [hgBb6]; norm_num)]
  exact bB7

lemma bB5 : bisectLoop cxB cpB 1e-7 (-((3687265940131275510626200500034300000560000013 : ℝ) / 86000000000000000000000000000000000000000000000)) (-((11061797820393826531878601500102900001680000039 : ℝ) / 275200000000000000000000000000000000000000000000)) (some (-((11061797820393826531878601500102900001680000039 : ℝ) / 275200000000000000000000000000000000000000000000))) 996 =
    some ((-((938405494497469486178857401058229315842519443308487 : ℝ) / 22544384000000000000000000000000000000000000000000000)), (-((1876807301728998841082204175915958597385038326616961 : ℝ) / 45088768000000000000000000000000000000000000000000000)), some (-((1876807301728998841082204175915958597385038326616961 : ℝ) / 45088768000000000000000000000000000000000000000000000))) := by
  rw [bisectLoop.eq_def,
    show (((-((11061797820393826531878601500102900001680000039 : ℝ) / 275200000000000000000000000000000000000000000000)) + (-((3687265940131275510626200500034300000560000013 : ℝ) / 86000000000000000000000000000000000000000000000))) / 2) = (-((114305244144069540829412215501063300017360000403 : ℝ) / 2752000000000000000000000000000000000000000000000)) from by norm_num,
    show ((996 : ℕ) - 1) = (995 : ℕ) from by norm_num,
    if_pos (show ((1e-7 : ℝ) < (-((11061797820393826531878601500102900001680000039 : ℝ) / 275200000000000000000000000000000000000000000000)) - (-((3687265940131275510626200500034300000560000013 : ℝ) / 86000000000000000000000000000000000000000000000))) from by norm_num),
    dif_neg (show ¬ ((996 : ℕ) ≤ 1) from by norm_num),
    if_pos (show (0 : ℝ) < line_grad (cxB + (-((114305244144069540829412215501063300017360000403 : ℝ) / 2752000000000000000000000000000000000000000000000)) • cpB) cpB from by
      rw [hgBb5]; norm_num)]
  exact bB6

lemma bB4 : bisectLoop cxB cpB 1e-7 (-((3687265940131275510626200500034300000560000013 : ℝ) / 86000000000000000000000000000000000000000000000)) (-((25810861580918928574383403500240100003920000091 : ℝ) / 688000000000000000000000000000000000000000000000)) (some (-((25810861580918928574383403500240100003920000091 : ℝ) / 688000000000000000000000000000000000000000000000))) 997 =
    some ((-((938405494497469486178857401058229315842519443308487 : ℝ) / 22544384000000000000000000000000000000000000000000000)), (-((1876807301728998841082204175915958597385038326616961 : ℝ) / 45088768000000000000000000000000000000000000000000000)), some (-((1876807301728998841082204175915958597385038326616961 : ℝ) / 45088768000000000000000000000000000000000000000000000))) := by
  rw [bisectLoop.eq_def,
    show (((-((25810861580918928574383403500240100003920000091 : ℝ) / 688000000000000000000000000000000000000000000000)) + (-((3687265940131275510626200500034300000560000013 : ℝ) / 86000000000000000000000000000000000000000000000))) / 2) = (-((11061797820393826531878601500102900001680000039 : ℝ) / 275200000000000000000000000000000000000000000000)) from by norm_num,
    show ((997 : ℕ) - 1) = (996 : ℕ) from by norm_num,
    if_pos (show ((1e-7 : ℝ) < (-((25810861580918928574383403500240100003920000091 : ℝ) / 688000000000000000000000000000000000000000000000)) - (-((3687265940131275510626200500034300000560000013 : ℝ) / 86000000000000000000000000000000000000000000000))) from by norm_num),
    dif_neg (show ¬ ((997 : ℕ) ≤ 1) from by norm_num),
    if_pos (show (0 : ℝ) < line_grad (cxB + (-((11061797820393826531878601500102900001680000039 : ℝ) / 275200000000000000000000000000000000000000000000)) • cpB) cpB from by
      rw [hgBb4]; norm_num)]
  exact bB5

lemma bB3 : bisectLoop cxB cpB 1e-7 (-((3687265940131275510626200500034300000560000013 : ℝ) / 86000000000000000000000000000000000000000000000)) (-((11061797820393826531878601500102900001680000039 : ℝ) / 344000000000000000000000000000000000000000000000)) (some (-((11061797820393826531878601500102900001680000039 : ℝ) / 344000000000000000000000000000000000000000000000))) 998 =
    some ((-((938405494497469486178857401058229315842519443308487 : ℝ) / 22544384000000000000000000000000000000000000000000000)), (-((1876807301728998841082204175915958597385038326616961 : ℝ) / 45088768000000000000000000000000000000000000000000000)), some (-((1876807301728998841082204175915958597385038326616961 : ℝ) / 45088768000000000000000000000000000000000000000000000))) := by
  rw [bisectLoop.eq_def,
    show (((-((11061797820393826531878601500102900001680000039 : ℝ) / 344000000000000000000000000000000000000000000000)) + (-((3687265940131275510626200500034300000560000013 : ℝ) / 86000000000000000000000000000000000000000000000))) / 2) = (-((25810861580918928574383403500240100003920000091 : ℝ) / 688000000000000000000000000000000000000000000000)) from by norm_num,
    show ((998 : ℕ) - 1) = (997 : ℕ) from by norm_num,
    if_pos (show ((1e-7 : ℝ) < (-((11061797820393826531878601500102900001680000039 : ℝ) / 344000000000000000000000000000000000000000000000)) - (-((3687265940131275510626200500034300000560000013 : ℝ) / 86000000000000000000000000000000000000000000000))) from by norm_num),
    dif_neg (show ¬ ((998 : ℕ) ≤ 1) from by norm_num),
    if_pos (show (0 : ℝ) < line_grad (cxB + (-((25810861580918928574383403500240100003920000091 : ℝ) / 688000000000000000000000000000000000000000000000)) • cpB) cpB from by
      rw [hgBb3]; norm_num)]
  exact bB4

lemma bB2 : bisectLoop cxB cpB 1e-7 (-((3687265940131275510626200500034300000560000013 : ℝ) / 86000000000000000000000000000000000000000000000)) (-((3687265940131275510626200500034300000560000013 : ℝ) / 172000000000000000000000000000000000000000000000)) (some (-((3687265940131275510626200500034300000560000013 : ℝ) / 172000000000000000000000000000000000000000000000))) 999 =
    some ((-((938405494497469486178857401058229315842519443308487 : ℝ) / 22544384000000000000000000000000000000000000000000000)), (-((1876807301728998841082204175915958597385038326616961 : ℝ) / 45088768000000000000000000000000000000000000000000000)), some (-((1876807301728998841082204175915958597385038326616961 : ℝ) / 45088768000000000000000000000000000000000000000000000))) := by
  rw [bisectLoop.eq_def,
    show (((-((3687265940131275510626200500034300000560000013 : ℝ) / 172000000000000000000000000000000000000000000000)) + (-((3687265940131275510626200500034300000560000013 : ℝ) / 86000000000000000000000000000000000000000000000))) / 2) = (-((11061797820393826531878601500102900001680000039 : ℝ) / 344000000000000000000000000000000000000000000000)) from by norm_num,
    show ((999 : ℕ) - 1) = (998 : ℕ) from by norm_num,
    if_pos (show ((1e-7 : ℝ) < (-((3687265940131275510626200500034300000560000013 : ℝ) / 172000000000000000000000000000000000000000000000)) - (-((3687265940131275510626200500034300000560000013 : ℝ) / 86000000000000000000000000000000000000000000000))) from by norm_num),
    dif_neg (show ¬ ((999 : ℕ) ≤ 1) from by norm_num),
    if_pos (show (0 : ℝ) < line_grad (cxB + (-((11061797820393826531878601500102900001680000039 : ℝ) / 344000000000000000000000000000000000000000000000)) • cpB) cpB from by
      rw [hgBb2]; norm_num)]
  exact bB3

lemma bB1 : bisectLoop cxB cpB 1e-7 (-((3687265940131275510626200500034300000560000013 : ℝ) / 86000000000000000000000000000000000000000000000)) (0 : ℝ) none 1000 =
    some ((-((938405494497469486178857401058229315842519443308487 : ℝ) / 22544384000000000000000000000000000000000000000000000)), (-((1876807301728998841082204175915958597385038326616961 : ℝ) / 45088768000000000000000000000000000000000000000000000)), some (-((1876807301728998841082204175915958597385038326616961 : ℝ) / 45088768000000000000000000000000000000000000000000000))) := by
  rw [bisectLoop.eq_def,
    show (((0 : ℝ) + (-((3687265940131275510626200500034300000560000013 : ℝ) / 86000000000000000000000000000000000000000000000))) / 2) = (-((3687265940131275510626200500034300000560000013 : ℝ) / 172000000000000000000000000000000000000000000000)) from by norm_num,
    show ((1000 : ℕ) - 1) = (999 : ℕ) from by norm_num,
    if_pos (show ((1e-7 : ℝ) < (0 : ℝ) - (-((3687265940131275510626200500034300000560000013 : ℝ) / 86000000000000000000000000000000000000000000000))) from by norm_num),
    dif_neg (show ¬ ((1000 : ℕ) ≤ 1) from by norm_num),
    if_pos (show (0 : ℝ) < line_grad (cxB + (-((3687265940131275510626200500034300000560000013 : ℝ) / 172000000000000000000000000000000000000000000000)) • cpB) cpB from by
      rw [hgBb1]; norm_num)]
  exact bB2

lemma eBc : expandLoop cxB cpB (line_grad cxB cpB) 2
    (-line_grad cxB cpB * 1e-3) 1000 = some (-((3687265940131275510626200500034300000560000013 : ℝ) / 86000000000000000000000000000000000000000000000)) := by
  rw [hlgB, show (-((3687265940131275510626200500034300000560000013 : ℝ) / 86000000000000000000000000000000000000000000) * (1e-3 : ℝ)) = (-((3687265940131275510626200500034300000560000013 : ℝ) / 86000000000000000000000000000000000000000000000)) from by norm_num]
  exact eB0

lemma bBc : bisectLoop cxB cpB 1e-7 (min 0 (-((3687265940131275510626200500034300000560000013 : ℝ) / 86000000000000000000000000000000000000000000000))) (max 0 (-((3687265940131275510626200500034300000560000013 : ℝ) / 86000000000000000000000000000000000000000000000))) none 1000 =
    some ((-((938405494497469486178857401058229315842519443308487 : ℝ) / 22544384000000000000000000000000000000000000000000000)), (-((1876807301728998841082204175915958597385038326616961 : ℝ) / 45088768000000000000000000000000000000000000000000000)), some (-((1876807301728998841082204175915958597385038326616961 : ℝ) / 45088768000000000000000000000000000000000000000000000))) := by
  rw [show (min (0 : ℝ) (-((3687265940131275510626200500034300000560000013 : ℝ) / 86000000000000000000000000000000000000000000000))) = (-((3687265940131275510626200500034300000560000013 : ℝ) / 86000000000000000000000000000000000000000000000)) from by norm_num,
    show (max (0 : ℝ) (-((3687265940131275510626200500034300000560000013 : ℝ) / 86000000000000000000000000000000000000000000000))) = (0 : ℝ) from by norm_num]
  exact bB1

/-- The full concrete run B: `my_line_search` succeeds and returns
`cxB + lnew • cpB` with `lnew = -1876807301728998841082204175915958597385038326616961/45088768000000000000000000000000000000000000000000000`. -/
lemma runB : my_line_search cxB cpB = LSResult.ok (cxB + (-((1876807301728998841082204175915958597385038326616961 : ℝ) / 45088768000000000000000000000000000000000000000000000)) • cpB) :=
  (my_line_search_eq_of cxB cpB 1e-3 2 1e-7 1000 (-((3687265940131275510626200500034300000560000013 : ℝ) / 86000000000000000000000000000000000000000000000))
    ((-((938405494497469486178857401058229315842519443308487 : ℝ) / 22544384000000000000000000000000000000000000000000000)), (-((1876807301728998841082204175915958597385038326616961 : ℝ) / 45088768000000000000000000000000000000000000000000000)), some (-((1876807301728998841082204175915958597385038326616961 : ℝ) / 45088768000000000000000000000000000000000000000000000))) eBc bBc).trans rfl

lemma gradB : grad cxB = cpB := by
  funext i
  fin_cases i
  · show grad cxB 1e-7 0 = cpB 0
    rw [grad_apply_zero]
    simp only [cxB, cpB, vec3_zero, a]
    norm_num
  · show grad cxB 1e-7 1 = cpB 1
    rw [grad_apply_one _ _ (by norm_num : (1e-7 : ℝ) ≠ 0)]
    simp only [cxB, cpB, vec3_one]
    norm_num
  · show grad cxB 1e-7 2 = cpB 2
    rw [grad_apply_two]
    simp only [cxB, cpB, vec3_two, b]
    norm_num

lemma driverLoopB0 : driverLoop (cxB + (-((1876807301728998841082204175915958597385038326616961 : ℝ) / 45088768000000000000000000000000000000000000000000000)) • cpB) (get_next_p cxB (cxB + (-((1876807301728998841082204175915958597385038326616961 : ℝ) / 45088768000000000000000000000000000000000000000000000)) • cpB) cpB) 0 = some [] := by
  rw [driverLoop.eq_def, dif_pos rfl]

lemma driverLoopB1 : driverLoop cxB cpB 1 =
    some [((cxB + (-((1876807301728998841082204175915958597385038326616961 : ℝ) / 45088768000000000000000000000000000000000000000000000)) • cpB), get_next_p cxB (cxB + (-((1876807301728998841082204175915958597385038326616961 : ℝ) / 45088768000000000000000000000000000000000000000000000)) • cpB) cpB)] := by
  rw [driverLoop.eq_def, dif_neg (show ¬ ((1 : ℕ) = 0) from by norm_num)]
  simp only [show get_next_x cxB cpB = LSResult.ok (cxB + (-((1876807301728998841082204175915958597385038326616961 : ℝ) / 45088768000000000000000000000000000000000000000000000)) • cpB) from runB]
  rw [show ((1 : ℕ) - 1) = (0 : ℕ) from rfl, driverLoopB0]

/-- The full concrete driver run: two outer iterations from `cxB`. -/
lemma driverB : driver cxB 2 =
    some [(cxB, cpB), ((cxB + (-((1876807301728998841082204175915958597385038326616961 : ℝ) / 45088768000000000000000000000000000000000000000000000)) • cpB), get_next_p cxB (cxB + (-((1876807301728998841082204175915958597385038326616961 : ℝ) / 45088768000000000000000000000000000000000000000000000)) • cpB) cpB)] := by
  unfold driver
  rw [gradB, show ((2 : ℕ) - 1) = (1 : ℕ) from rfl, driverLoopB1]

/-! ### Counterexamples and witnesses -/

/-- C1 counterexample: at `cxA` with the nonzero direction `cpA` and the
default configuration, `my_line_search` returns normally but the directional
derivative at the returned point is about `8.8e-4`, far above `1e-6`. -/
theorem c1_counterexample :
    cpA ≠ 0 ∧
    my_line_search cxA cpA = LSResult.ok ((cxA + ((1 : ℝ) / 16000000) • cpA)) ∧
    (1e-6 : ℝ) ≤ |line_grad (cxA + ((1 : ℝ) / 16000000) • cpA) cpA| := by
  refine ⟨?_, runA, ?_⟩
  · intro h
    have h1 := congrFun h 1
    simp only [cpA, vec3_one, Pi.zero_apply] at h1
    norm_num at h1
  · rw [hgAb5, abs_of_pos (by norm_num)]
    norm_num

/-- C1 witness: the bracketing postcondition instantiated on the concrete
run A. -/
theorem c1_witness :
    (0 : ℝ) ≤ 1e-3 ∧ (0 : ℝ) ≤ 2 ∧ (0 : ℝ) < 1e-7 ∧
    my_line_search cxA cpA = LSResult.ok ((cxA + ((1 : ℝ) / 16000000) • cpA)) ∧
    ∃ l lo hi : ℝ, (cxA + ((1 : ℝ) / 16000000) • cpA) = cxA + l • cpA ∧ lo ≤ l ∧ l ≤ hi ∧ hi - lo ≤ 1e-7 ∧
      line_grad (cxA + lo • cpA) cpA ≤ 0 ∧ 0 ≤ line_grad (cxA + hi • cpA) cpA :=
  ⟨by norm_num, by norm_num, by norm_num, runA,
   c1_line_search_postcondition cxA cpA 1e-3 2 1e-7 1000 _
     (by norm_num) (by norm_num) (by norm_num) runA⟩

/-- C2 witness: the Polak-Ribiere identity instantiated at the start point,
whose finite-difference gradient is nonzero. -/
theorem c2_witness :
    grad x0 ≠ 0 ∧
    get_next_p x0 x0 p0 =
      grad x0 + (dot (grad x0 - grad x0) (grad x0) / dot (grad x0) (grad x0)) • p0 := by
  have hg : grad x0 ≠ 0 := by
    intro hc
    have h1 := congrFun hc 1
    rw [grad_apply_one _ _ (by norm_num : (1e-7 : ℝ) ≠ 0)] at h1
    simp only [x0, vec3_one, Pi.zero_apply] at h1
    norm_num at h1
  exact ⟨hg, c2_polak_ribiere_update x0 x0 p0 hg⟩

/-- C3 counterexample: a concrete two-iteration driver run whose trajectory
has the INITIAL pair `(cxB, cpB)` at index 0; the first post-line-search
iterate is the distinct point at index 1. -/
theorem c3_counterexample :
    driver cxB 2 =
      some [(cxB, cpB), ((cxB + (-((1876807301728998841082204175915958597385038326616961 : ℝ) / 45088768000000000000000000000000000000000000000000000)) • cpB), get_next_p cxB (cxB + (-((1876807301728998841082204175915958597385038326616961 : ℝ) / 45088768000000000000000000000000000000000000000000000)) • cpB) cpB)] ∧
    my_line_search cxB cpB = LSResult.ok (cxB + (-((1876807301728998841082204175915958597385038326616961 : ℝ) / 45088768000000000000000000000000000000000000000000000)) • cpB) ∧
    (cxB + (-((1876807301728998841082204175915958597385038326616961 : ℝ) / 45088768000000000000000000000000000000000000000000000)) • cpB) ≠ cxB := by
  refine ⟨driverB, runB, ?_⟩
  intro h
  have h0 := congrFun h 0
  simp only [Pi.add_apply, Pi.smul_apply, smul_eq_mul, cxB, cpB, vec3_zero] at h0
  norm_num at h0

/-- C3 witness: the amended trajectory description instantiated on the
concrete two-iteration driver run. -/
theorem c3_witness :
    (1 : ℕ) ≤ 2 ∧
    driver cxB 2 = some [(cxB, cpB), ((cxB + (-((1876807301728998841082204175915958597385038326616961 : ℝ) / 45088768000000000000000000000000000000000000000000000)) • cpB), get_next_p cxB (cxB + (-((1876807301728998841082204175915958597385038326616961 : ℝ) / 45088768000000000000000000000000000000000000000000000)) • cpB) cpB)] ∧
    ([(cxB, cpB), ((cxB + (-((1876807301728998841082204175915958597385038326616961 : ℝ) / 45088768000000000000000000000000000000000000000000000)) • cpB), get_next_p cxB (cxB + (-((1876807301728998841082204175915958597385038326616961 : ℝ) / 45088768000000000000000000000000000000000000000000000)) • cpB) cpB)].length = 2 ∧
     [(cxB, cpB), ((cxB + (-((1876807301728998841082204175915958597385038326616961 : ℝ) / 45088768000000000000000000000000000000000000000000000)) • cpB), get_next_p cxB (cxB + (-((1876807301728998841082204175915958597385038326616961 : ℝ) / 45088768000000000000000000000000000000000000000000000)) • cpB) cpB)].get? 0 = some (cxB, grad cxB) ∧
     ∀ (k : ℕ) (xk pk xk1 pk1 : Vec),
       [(cxB, cpB), ((cxB + (-((1876807301728998841082204175915958597385038326616961 : ℝ) / 45088768000000000000000000000000000000000000000000000)) • cpB), get_next_p cxB (cxB + (-((1876807301728998841082204175915958597385038326616961 : ℝ) / 45088768000000000000000000000000000000000000000000000)) • cpB) cpB)].get? k = some (xk, pk) →
       [(cxB, cpB), ((cxB + (-((1876807301728998841082204175915958597385038326616961 : ℝ) / 45088768000000000000000000000000000000000000000000000)) • cpB), get_next_p cxB (cxB + (-((1876807301728998841082204175915958597385038326616961 : ℝ) / 45088768000000000000000000000000000000000000000000000)) • cpB) cpB)].get? (k + 1) = some (xk1, pk1) →
       my_line_search xk pk = LSResult.ok xk1 ∧ pk1 = get_next_p xk xk1 pk) :=
  ⟨by norm_num, driverB, c3_driver_trajectory cxB 2 _ (by norm_num) driverB⟩

/-- C4 counterexample: on the zero direction the line search does not return
any point at all (it fails with the unbound-local error), contradicting the
claim that it returns the input point unchanged. -/
theorem c4_counterexample :
    my_line_search x0 (0 : Vec) = LSResult.nameError ∧
    ∀ pt : Vec, my_line_search x0 (0 : Vec) ≠ LSResult.ok pt := by
  have h := my_line_search_of_lgla_zero x0 0 1e-3 2 1e-7 1000
    (line_grad_zero_dir x0) (by norm_num)
  exact ⟨h, fun pt hpt => by rw [h] at hpt; exact LSResult.noConfusion hpt⟩

/-- C4 witness: the amended behaviour instantiated at the start point with
the default configuration. -/
theorem c4_witness :
    (0 : ℝ) < 1e-7 ∧
    (my_line_search x0 0 = LSResult.nameError ∧ normalize 0 = 0) :=
  ⟨by norm_num, c4_zero_direction x0 1e-3 2 1e-7 1000 (by norm_num)⟩

/-- C6 witness: the timeout characterization instantiated at `(x0, p0)` with
the default configuration. -/
theorem c6_witness :
    (1 : ℕ) ≤ 1000 ∧
    ((my_line_search x0 p0 = LSResult.timeoutExpansion ↔
      ∀ k < 1000, 0 < line_grad x0 p0 *
        line_grad (x0 + (-line_grad x0 p0 * 1e-3 * 2 ^ k) • p0) p0) ∧
    (∀ lb', expandLoop x0 p0 (line_grad x0 p0) 2 (-line_grad x0 p0 * 1e-3) 1000 = some lb' →
      line_grad x0 p0 * line_grad (x0 + lb' • p0) p0 ≤ 0)) :=
  ⟨by norm_num, c6_bracket_expansion x0 p0 1e-3 2 1e-7 1000 (by norm_num)⟩

/-- C7 witness: the bisection invariants instantiated on a concrete ordered
bracket. -/
theorem c7_witness :
    (0 : ℝ) ≤ 1 ∧ (1 : ℕ) ≤ 1 ∧
    ((∀ s, bisectLoop x0 p0 1 0 1 none 1 = some s →
        (0 : ℝ) ≤ s.1 ∧ s.1 ≤ s.2.1 ∧ s.2.1 ≤ 1 ∧ s.2.1 - s.1 ≤ 1) ∧
     (bisectLoop x0 p0 1 0 1 none 1 = none ↔
       (1 : ℝ) < (1 - 0) / 2 ^ ((1 : ℕ) - 1)) ∧
     ((1 : ℝ) < 1 - 0 → ¬ (1 : ℕ) ≤ 1 →
       bisectLoop x0 p0 1 0 1 none 1 =
         if 0 < line_grad (x0 + (((1 : ℝ) + 0) / 2) • p0) p0 then
           bisectLoop x0 p0 1 0 ((1 + 0) / 2) (some ((1 + 0) / 2)) (1 - 1)
         else
           bisectLoop x0 p0 1 ((1 + 0) / 2) 1 (some ((1 + 0) / 2)) (1 - 1))) :=
  ⟨by norm_num, by norm_num,
   c7_bisection_invariants x0 p0 1 0 1 none 1 (by norm_num) (by norm_num)⟩

/-- C8 witness: two identically-configured runs from `x0` with 20 iterations. -/
theorem c8_witness : x0 = x0 ∧ (20 : ℕ) = 20 ∧ driver x0 20 = driver x0 20 :=
  ⟨rfl, rfl, c8_reproducibility x0 x0 20 20 rfl rfl⟩

/-- C9 witness: run A returns a point of the form `cxA + t • cpA`. -/
theorem c9_witness :
    my_line_search cxA cpA = LSResult.ok ((cxA + ((1 : ℝ) / 16000000) • cpA)) ∧
    ∃ t : ℝ, (cxA + ((1 : ℝ) / 16000000) • cpA) = cxA + t • cpA :=
  ⟨runA, c9_step_on_input_ray cxA cpA 1e-3 2 1e-7 1000 _ runA⟩

/-- C10 witness: the exact finite-difference formulas at `x0` with the
default `δ`. -/
theorem c10_witness :
    (1e-7 : ℝ) ≠ 0 ∧
    (grad x0 1e-7 1 = 2 * (x0 1 - 2) + 1e-7 ∧
     grad x0 1e-7 0 = a * ((x0 0 - 1 + 1e-7) ^ 4 - (x0 0 - 1) ^ 4) / 1e-7 ∧
     grad x0 1e-7 2 = b * ((x0 2 - 1 + 1e-7) ^ 4 - (x0 2 - 1) ^ 4) / 1e-7 ∧
     ∀ c : ℝ, grad (Function.update x0 1 c) 1e-7 0 = grad x0 1e-7 0 ∧
       grad (Function.update x0 1 c) 1e-7 2 = grad x0 1e-7 2) :=
  ⟨by norm_num, c10_forward_difference_bias x0 1e-7 (by norm_num)⟩

end

end CG
